import Mathlib

set_option maxRecDepth 8192

/-!
A shallow embedding of the precise stepping engine of
`src/lib/Marlin/Marlin/src/feature/precise_stepping/precise_stepping.cpp`.

The C++ double-precision time/distance domain is modelled by `ℚ` (exact field
arithmetic); the tick domain is `ℤ`, with the C `int32_t` cast modelled as
truncation toward zero.  `std::sqrt` and the kinematic root solver
`calc_time_for_distance` (whose bodies live in headers that are not part of the
sources) are opaque function parameters carried in a `Config` record, together
with the configured constants (`EPSILON_DISTANCE`, `MOVE_SEGMENT_QUEUE_*`,
`ticks_per_sec`, `Planner::mm_per_step`, ...).  Queues are modelled as lists
(oldest element first; the producer appends at the right end).
-/

/-! ## Step event flags

Bit layout: bits 0-3 step X/Y/Z/E, bits 4-7 direction, bits 8-11 axis-active,
bit 12 beginning-of-move-segment, bit 13 end-of-motion.  The relative position
of the dir and active groups is fixed by the source comments ("It assumes that
dir bit flags for step_event_t and move_t are the same position"); the layout of
the remaining bits is modelled from the spec (`internal.hpp` is not under
`src/`). -/

def STEP_EVENT_FLAG_STEP_X : ℕ := 2 ^ 0
def STEP_EVENT_FLAG_STEP_Y : ℕ := 2 ^ 1
def STEP_EVENT_FLAG_STEP_Z : ℕ := 2 ^ 2
def STEP_EVENT_FLAG_STEP_E : ℕ := 2 ^ 3
def STEP_EVENT_FLAG_X_DIR : ℕ := 2 ^ 4
def STEP_EVENT_FLAG_Y_DIR : ℕ := 2 ^ 5
def STEP_EVENT_FLAG_Z_DIR : ℕ := 2 ^ 6
def STEP_EVENT_FLAG_E_DIR : ℕ := 2 ^ 7
def STEP_EVENT_FLAG_X_ACTIVE : ℕ := 2 ^ 8
def STEP_EVENT_FLAG_Y_ACTIVE : ℕ := 2 ^ 9
def STEP_EVENT_FLAG_Z_ACTIVE : ℕ := 2 ^ 10
def STEP_EVENT_FLAG_E_ACTIVE : ℕ := 2 ^ 11
def STEP_EVENT_FLAG_BEGINNING_OF_MOVE_SEGMENT : ℕ := 2 ^ 12
def STEP_EVENT_END_OF_MOTION : ℕ := 2 ^ 13

def STEP_EVENT_FLAG_AXIS_MASK : ℕ := 2 ^ 0 + 2 ^ 1 + 2 ^ 2 + 2 ^ 3
def STEP_EVENT_FLAG_DIR_MASK : ℕ := 2 ^ 4 + 2 ^ 5 + 2 ^ 6 + 2 ^ 7
def STEP_EVENT_FLAG_AXIS_ACTIVE_MASK : ℕ := 2 ^ 8 + 2 ^ 9 + 2 ^ 10 + 2 ^ 11

/-- Modelled from the spec and the source comment "no step or move flag
overlap" (`process_one_move_segment_from_queue`): `STEP_EVENT_FLAG_AXIS_OTHER_MASK`
is defined in `internal.hpp` (not under `src/`) and covers the per-move-segment
flags (beginning-of-move-segment and end-of-motion). -/
def STEP_EVENT_FLAG_AXIS_OTHER_MASK : ℕ :=
  STEP_EVENT_FLAG_BEGINNING_OF_MOVE_SEGMENT + STEP_EVENT_END_OF_MOTION

/-! ## Move segment flags

Bits 0-2 are the accel/cruise/decel phase flags, bit 3 first-segment-of-block,
bits 4-7 direction (`MOVE_FLAG_DIR_SHIFT = 4`, shared position with the step
event dir flags), bits 8-11 axis-active (shared position with the step event
active flags), bit 12 last-segment-of-block, bits 13-14 the empty-move
sentinels.  Exact positions of the non-shared bits are modelled from the spec
(`internal.hpp` is not under `src/`); no claim depends on them beyond
distinctness. -/

def MOVE_FLAG_ACCELERATION_PHASE : ℕ := 2 ^ 0
def MOVE_FLAG_CRUISE_PHASE : ℕ := 2 ^ 1
def MOVE_FLAG_DECELERATION_PHASE : ℕ := 2 ^ 2
def MOVE_FLAG_FIRST_MOVE_SEGMENT_OF_BLOCK : ℕ := 2 ^ 3
def MOVE_FLAG_DIR_SHIFT : ℕ := 4
def MOVE_FLAG_X_ACTIVE : ℕ := 2 ^ 8
def MOVE_FLAG_Y_ACTIVE : ℕ := 2 ^ 9
def MOVE_FLAG_Z_ACTIVE : ℕ := 2 ^ 10
def MOVE_FLAG_E_ACTIVE : ℕ := 2 ^ 11
def MOVE_FLAG_LAST_MOVE_SEGMENT_OF_BLOCK : ℕ := 2 ^ 12
def MOVE_FLAG_BEGINNING_EMPTY_MOVE : ℕ := 2 ^ 13
def MOVE_FLAG_ENDING_EMPTY_MOVE : ℕ := 2 ^ 14

/-- A move-segment flag test (`move.flags & mask`, nonzero means present). -/
def moveFlagSet (flags mask : ℕ) : Prop := flags &&& mask ≠ 0

instance (flags mask : ℕ) : Decidable (moveFlagSet flags mask) := by
  unfold moveFlagSet; infer_instance

/-! ## The xyze quadruple -/

/-- A per-axis quadruple, mirroring the `xyze_double_t` / `xyze_long_t`
containers of the source. -/
structure xyze (α : Type) where
  x : α
  y : α
  z : α
  e : α
deriving DecidableEq, Repr

def xyze.get {α : Type} (v : xyze α) (i : Fin 4) : α :=
  match i with
  | 0 => v.x
  | 1 => v.y
  | 2 => v.z
  | 3 => v.e

def xyze.set {α : Type} (v : xyze α) (i : Fin 4) (a : α) : xyze α :=
  match i with
  | 0 => { v with x := a }
  | 1 => { v with y := a }
  | 2 => { v with z := a }
  | 3 => { v with e := a }

def xyze.toList {α : Type} (v : xyze α) : List α := [v.x, v.y, v.z, v.e]

def xyze.zipWith {α β γ : Type} (f : α → β → γ) (u : xyze α) (v : xyze β) : xyze γ :=
  { x := f u.x v.x, y := f u.y v.y, z := f u.z v.z, e := f u.e v.e }

/-! ## Data structures -/

/-- `step_event_t`: the tick-domain queued event (`time_ticks` is relative to
the previous event; `int32_t` in the source). -/
structure step_event_t where
  time_ticks : ℤ
  flags : ℕ
deriving DecidableEq, Repr

/-- `step_event_info_t`: a generator output in the float time domain.
`time = DBL_MAX` means "no event known yet from this axis". -/
structure step_event_info_t where
  time : ℚ
  flags : ℕ
deriving DecidableEq, Repr

/-- The value of `std::numeric_limits<double>::max()`, used by the source as
the "no event" sentinel time. -/
def DBL_MAX : ℚ := (2 ^ 53 - 1) * 2 ^ 971

/-- `move_t`: one move segment. -/
structure move_t where
  move_t : ℚ
  start_v : ℚ
  half_accel : ℚ
  print_time : ℚ
  axes_r : xyze ℚ
  start_pos : xyze ℚ
  flags : ℕ
  reference_cnt : ℕ
deriving DecidableEq, Repr

/-- `block_t`: the planner block (only the fields the engine reads). -/
structure block_t where
  steps : xyze ℕ
  direction_bits : ℕ
  millimeters : ℚ
  acceleration : ℚ
  initial_speed : ℚ
  final_speed : ℚ
  nominal_speed : ℚ
deriving DecidableEq, Repr

/-- `step_generator_state_t`: the merger state (the per-axis generator objects
and function pointers are modelled separately as an oracle parameter). -/
structure step_generator_state_t where
  step_events : xyze step_event_info_t
  step_event_index : xyze (Fin 4)
  previous_step_time : ℚ
  current_distance : xyze ℤ
  left_insert_start_of_move_segment : ℕ
  flags : ℕ
  buffered_step : step_event_t
  initialized : Bool
deriving DecidableEq, Repr

/-- Configured constants and the opaque float helpers of the engine.
`EPSILON_DISTANCE`, `EPSILON`, `MOVE_SEGMENT_QUEUE_*` and the bodies of
`std::sqrt` / `calc_time_for_distance` live outside `src/`; they are carried
here as parameters (faithful to their source signatures). -/
structure Config where
  ticks_per_sec : ℚ
  EPSILON_DISTANCE : ℚ
  EPSILON : ℚ
  sqrtQ : ℚ → ℚ
  mm_per_step : xyze ℚ
  mm_per_half_step : xyze ℚ
  calc_time_for_distance : ℚ → ℚ → ℚ → Bool → Option ℚ
  MOVE_SEGMENT_QUEUE_MIN_FREE_SLOTS : ℕ
  MOVE_SEGMENT_QUEUE_SIZE : ℕ
  STEP_EVENT_QUEUE_SIZE : ℕ

/-- The engine state touched by the modelled operations (static members of
`PreciseStepping`, plus the stepper/planner state that `reset_queues` and the
step ISR interact with). -/
structure EngineState where
  move_segment_queue : List move_t
  step_event_queue : List step_event_t
  total_print_time : ℚ
  total_start_pos : xyze ℚ
  total_start_pos_steps : xyze ℤ
  step_generator_state : step_generator_state_t
  planner_blocks : List block_t
  axis_did_move : ℕ
  stop_pending : Bool
  step_dl_miss : ℕ
  step_ev_miss : ℕ
  left_ticks_to_next_step_event : ℕ
  count_position : xyze ℤ
deriving DecidableEq, Repr

/-! ## Small helpers from the source -/

def SQR (v : ℚ) : ℚ := v * v

/-- `get_oriented_steps_from_block`: per-axis signed step counts
(direction bit set means negative direction). -/
def get_oriented_steps_from_block (b : block_t) : xyze ℤ :=
  { x := (b.steps.x : ℤ) * (if b.direction_bits.testBit 0 then -1 else 1)
    y := (b.steps.y : ℤ) * (if b.direction_bits.testBit 1 then -1 else 1)
    z := (b.steps.z : ℤ) * (if b.direction_bits.testBit 2 then -1 else 1)
    e := (b.steps.e : ℤ) * (if b.direction_bits.testBit 3 then -1 else 1) }

/-- `convert_oriented_steps_to_distance`: millimeters from signed steps. -/
def convert_oriented_steps_to_distance (cfg : Config) (steps : xyze ℤ) : xyze ℚ :=
  { x := (steps.x : ℚ) * cfg.mm_per_step.x
    y := (steps.y : ℚ) * cfg.mm_per_step.y
    z := (steps.z : ℚ) * cfg.mm_per_step.z
    e := (steps.e : ℚ) * cfg.mm_per_step.e }

/-- `get_active_axis_flags_from_block`. -/
def get_active_axis_flags_from_block (b : block_t) : ℕ :=
  (if b.steps.x > 0 then MOVE_FLAG_X_ACTIVE else 0)
    ||| (if b.steps.y > 0 then MOVE_FLAG_Y_ACTIVE else 0)
    ||| (if b.steps.z > 0 then MOVE_FLAG_Z_ACTIVE else 0)
    ||| (if b.steps.e > 0 then MOVE_FLAG_E_ACTIVE else 0)

/-- `calc_axes_r_from_block`: per-axis unit-direction component. -/
def calc_axes_r_from_block (cfg : Config) (b : block_t) : xyze ℚ :=
  let millimeters_inv := 1 / b.millimeters
  let f : ℕ → ℕ → ℚ → ℚ := fun stepsAxis i mmPerStep =>
    if stepsAxis = 0 then 0
    else
      let r := (stepsAxis : ℚ) * millimeters_inv * mmPerStep
      if b.direction_bits.testBit i then -r else r
  { x := f b.steps.x 0 cfg.mm_per_step.x
    y := f b.steps.y 1 cfg.mm_per_step.y
    z := f b.steps.z 2 cfg.mm_per_step.z
    e := f b.steps.e 3 cfg.mm_per_step.e }

/-- Modelled from the spec: `calc_end_position` (`internal.hpp`, not under
`src/`) advances the position along the per-axis unit direction by `dist`. -/
def calc_end_position (start_pos axes_r : xyze ℚ) (dist : ℚ) : xyze ℚ :=
  xyze.zipWith (fun p r => p + r * dist) start_pos axes_r

/-- `calc_velocity_after_acceleration`. -/
def calc_velocity_after_acceleration (cfg : Config) (start_v accel dist : ℚ) : ℚ :=
  cfg.sqrtQ (2 * dist * accel + SQR start_v)

/-- `calc_distance_required_to_reach_cruise_velocity`. -/
def calc_distance_required_to_reach_cruise_velocity (start_v cruise_v accel : ℚ) : ℚ :=
  (SQR cruise_v - SQR start_v) / (2 * accel)

/-- `calc_distance_required_to_reach_cruise_velocity_clamped`. -/
def calc_distance_required_to_reach_cruise_velocity_clamped (cfg : Config)
    (start_v cruise_v accel : ℚ) : ℚ :=
  let dist_out := calc_distance_required_to_reach_cruise_velocity start_v cruise_v accel
  if dist_out < cfg.EPSILON_DISTANCE then 0 else dist_out

/-- `calc_distance_in_which_we_start_decelerating`. -/
def calc_distance_in_which_we_start_decelerating (start_v end_v accel dist : ℚ) : ℚ :=
  (2 * dist * accel + SQR end_v - SQR start_v) / (4 * accel)

/-- `calc_distance_in_which_we_start_decelerating_clamped`. -/
def calc_distance_in_which_we_start_decelerating_clamped (cfg : Config)
    (start_v end_v accel dist : ℚ) : ℚ :=
  let dist_out := calc_distance_in_which_we_start_decelerating start_v end_v accel dist
  if dist_out ≤ cfg.EPSILON_DISTANCE then 0
  else if dist_out > dist - cfg.EPSILON_DISTANCE then dist
  else dist_out

/-! ## Block → segment compiler (`append_move_segments_to_queue`) -/

/-- `move_segment_queue_free_slots`. -/
def move_segment_queue_free_slots (cfg : Config) (s : EngineState) : ℕ :=
  cfg.MOVE_SEGMENT_QUEUE_SIZE - s.move_segment_queue.length

/-- Push one filled `move_t` onto the move segment queue (fails, leaving the
state unchanged, when no slot is free). -/
def push_move_segment (cfg : Config) (m : move_t) (s : EngineState) : Bool × EngineState :=
  if move_segment_queue_free_slots cfg s ≠ 0 then
    (true, { s with move_segment_queue := s.move_segment_queue ++ [m] })
  else (false, s)

/-- `append_move_segment_to_queue` (lines 120-136): fill a fresh segment's
fields (`reference_cnt = 0`) and push it. -/
def append_move_segment_to_queue (cfg : Config) (move_time start_v half_accel print_time : ℚ)
    (axes_r start_pos : xyze ℚ) (flags : ℕ) (s : EngineState) : Bool × EngineState :=
  push_move_segment cfg
    { move_t := move_time, start_v := start_v, half_accel := half_accel
      print_time := print_time, axes_r := axes_r, start_pos := start_pos
      flags := flags, reference_cnt := 0 } s

/-- The accel/decel/cruise distances and the cruise velocity computed at the
top of `append_move_segments_to_queue` (lines 202-213), including the
no-cruise-trapezoid recomputation. -/
def block_move_dists (cfg : Config) (b : block_t) : ℚ × ℚ × ℚ × ℚ :=
  let millimeters := b.millimeters
  let accel := b.acceleration
  let start_v := b.initial_speed
  let end_v := b.final_speed
  let cruise_v := b.nominal_speed
  let accel_dist := calc_distance_required_to_reach_cruise_velocity_clamped cfg start_v cruise_v accel
  let decel_dist := calc_distance_required_to_reach_cruise_velocity_clamped cfg end_v cruise_v accel
  let cruise_dist := millimeters - accel_dist - decel_dist
  if cruise_dist < cfg.EPSILON_DISTANCE then
    let accel_dist2 :=
      calc_distance_in_which_we_start_decelerating_clamped cfg start_v end_v accel millimeters
    let decel_dist2 := max (millimeters - accel_dist2) 0
    let cruise_v2 := calc_velocity_after_acceleration cfg start_v accel accel_dist2
    (accel_dist2, decel_dist2, 0, cruise_v2)
  else
    (accel_dist, decel_dist, cruise_dist, cruise_v)

/-- The number of move segments a block requires (`move_blocks_required`,
line 215). -/
def move_blocks_required (cfg : Config) (b : block_t) : ℕ :=
  (if (block_move_dists cfg b).1 ≠ 0 then 1 else 0)
    + (if (block_move_dists cfg b).2.1 ≠ 0 then 1 else 0)
    + (if (block_move_dists cfg b).2.2.1 ≠ 0 then 1 else 0)

/-- A cursor for the sequential segment emission: the state plus the running
`print_time` and `start_pos` local variables. -/
structure seg_cursor where
  st : EngineState
  print_time : ℚ
  start_pos : xyze ℚ

/-- The direction-bit field of a segment's flags
(`uint16_t(block.direction_bits & 0x0F) << MOVE_FLAG_DIR_SHIFT`). -/
def block_dir_flags (b : block_t) : ℕ :=
  (b.direction_bits &&& 0x0F) <<< MOVE_FLAG_DIR_SHIFT

/-- The accel move segment of a block (lines 222-229). -/
def accel_segment (cfg : Config) (b : block_t) (decel_dist cruise_dist cruise_v : ℚ)
    (print_time : ℚ) (start_pos : xyze ℚ) : move_t :=
  { move_t := (cruise_v - b.initial_speed) / b.acceleration
    start_v := b.initial_speed
    half_accel := b.acceleration / 2
    print_time := print_time
    axes_r := calc_axes_r_from_block cfg b
    start_pos := start_pos
    flags := MOVE_FLAG_ACCELERATION_PHASE
      ||| MOVE_FLAG_FIRST_MOVE_SEGMENT_OF_BLOCK
      ||| (if cruise_dist ≠ 0 ∨ decel_dist ≠ 0 then 0 else MOVE_FLAG_LAST_MOVE_SEGMENT_OF_BLOCK)
      ||| block_dir_flags b
      ||| get_active_axis_flags_from_block b
    reference_cnt := 0 }

/-- The cruise move segment of a block (lines 234-241). -/
def cruise_segment (cfg : Config) (b : block_t) (accel_dist decel_dist cruise_dist cruise_v : ℚ)
    (print_time : ℚ) (start_pos : xyze ℚ) : move_t :=
  { move_t := cruise_dist / cruise_v
    start_v := cruise_v
    half_accel := 0
    print_time := print_time
    axes_r := calc_axes_r_from_block cfg b
    start_pos := start_pos
    flags := MOVE_FLAG_CRUISE_PHASE
      ||| (if accel_dist ≠ 0 then 0 else MOVE_FLAG_FIRST_MOVE_SEGMENT_OF_BLOCK)
      ||| (if decel_dist ≠ 0 then 0 else MOVE_FLAG_LAST_MOVE_SEGMENT_OF_BLOCK)
      ||| block_dir_flags b
      ||| get_active_axis_flags_from_block b
    reference_cnt := 0 }

/-- The decel move segment of a block (lines 246-253). -/
def decel_segment (cfg : Config) (b : block_t) (accel_dist cruise_dist cruise_v : ℚ)
    (print_time : ℚ) (start_pos : xyze ℚ) : move_t :=
  { move_t := (cruise_v - b.final_speed) / b.acceleration
    start_v := cruise_v
    half_accel := -(b.acceleration / 2)
    print_time := print_time
    axes_r := calc_axes_r_from_block cfg b
    start_pos := start_pos
    flags := MOVE_FLAG_DECELERATION_PHASE
      ||| MOVE_FLAG_LAST_MOVE_SEGMENT_OF_BLOCK
      ||| (if accel_dist ≠ 0 ∨ cruise_dist ≠ 0 then 0 else MOVE_FLAG_FIRST_MOVE_SEGMENT_OF_BLOCK)
      ||| block_dir_flags b
      ||| get_active_axis_flags_from_block b
    reference_cnt := 0 }

/-- The accel-segment emission step (lines 222-232). -/
def push_accel_phase (cfg : Config) (b : block_t) (accel_dist decel_dist cruise_dist cruise_v : ℚ)
    (c : seg_cursor) : seg_cursor :=
  if accel_dist ≠ 0 then
    let m := accel_segment cfg b decel_dist cruise_dist cruise_v c.print_time c.start_pos
    { st := (push_move_segment cfg m c.st).2
      print_time := c.print_time + m.move_t
      start_pos := calc_end_position c.start_pos m.axes_r accel_dist }
  else c

/-- The cruise-segment emission step (lines 234-244). -/
def push_cruise_phase (cfg : Config) (b : block_t) (accel_dist decel_dist cruise_dist cruise_v : ℚ)
    (c : seg_cursor) : seg_cursor :=
  if cruise_dist ≠ 0 then
    let m := cruise_segment cfg b accel_dist decel_dist cruise_dist cruise_v c.print_time c.start_pos
    { st := (push_move_segment cfg m c.st).2
      print_time := c.print_time + m.move_t
      start_pos := calc_end_position c.start_pos m.axes_r cruise_dist }
  else c

/-- The decel-segment emission step (lines 246-255). -/
def push_decel_phase (cfg : Config) (b : block_t) (accel_dist decel_dist cruise_dist cruise_v : ℚ)
    (c : seg_cursor) : seg_cursor :=
  if decel_dist ≠ 0 then
    let m := decel_segment cfg b accel_dist cruise_dist cruise_v c.print_time c.start_pos
    { st := (push_move_segment cfg m c.st).2
      print_time := c.print_time + m.move_t
      start_pos := c.start_pos }
  else c

/-- `append_move_segments_to_queue` (lines 192-264): decompose a planner block
into 1-3 move segments, with back-pressure when the free slots would drop below
`MOVE_SEGMENT_QUEUE_MIN_FREE_SLOTS`. -/
def append_move_segments_to_queue (cfg : Config) (b : block_t) (s : EngineState) :
    Bool × EngineState :=
  let dists := block_move_dists cfg b
  let accel_dist := dists.1
  let decel_dist := dists.2.1
  let cruise_dist := dists.2.2.1
  let cruise_v := dists.2.2.2
  if move_segment_queue_free_slots cfg s
      < move_blocks_required cfg b + cfg.MOVE_SEGMENT_QUEUE_MIN_FREE_SLOTS then
    (false, s)
  else
    let c0 : seg_cursor := { st := s, print_time := s.total_print_time
                             start_pos := s.total_start_pos }
    let c1 := push_accel_phase cfg b accel_dist decel_dist cruise_dist cruise_v c0
    let c2 := push_cruise_phase cfg b accel_dist decel_dist cruise_dist cruise_v c1
    let c3 := push_decel_phase cfg b accel_dist decel_dist cruise_dist cruise_v c2
    let steps2 := xyze.zipWith (· + ·) c3.st.total_start_pos_steps (get_oriented_steps_from_block b)
    (true, { c3.st with
      total_start_pos_steps := steps2
      total_start_pos := convert_oriented_steps_to_distance cfg steps2
      total_print_time := c3.print_time })

/-- The tail of `PreciseStepping::process_queue_of_blocks` (lines 816-817): try
to append the segments of the next unprocessed block; discard it from the
planner only when the append succeeded. -/
def process_block_intake (cfg : Config) (s : EngineState) : EngineState :=
  match s.planner_blocks with
  | [] => s
  | b :: rest =>
    let r := append_move_segments_to_queue cfg b s
    if r.1 then { r.2 with planner_blocks := rest } else r.2

/-! ## The float→tick conversion -/

/-- The C cast `int32_t(q)` on an (in-range) floating value: truncation toward
zero. -/
def ratTruncToInt (q : ℚ) : ℤ := if 0 ≤ q then ⌊q⌋ else -⌊-q⌋

/-- Cumulative tick time of the first `i` events of a step event queue. -/
def ticksUpTo (evs : List step_event_t) (i : ℕ) : ℤ :=
  ((evs.take i).map step_event_t.time_ticks).sum

/-! ## The multi-axis merger (`generate_next_step_event`) -/

/-- The axis whose pending step event has the minimal time (ties resolved in
axis order, as by the source's selection pass). -/
def nearest_axis (ev : xyze step_event_info_t) : Fin 4 :=
  let m1 : Fin 4 := if (ev.get 1).time < (ev.get 0).time then 1 else 0
  let m2 : Fin 4 := if (ev.get 2).time < (ev.get m1).time then 2 else m1
  if (ev.get 3).time < (ev.get m2).time then 3 else m2

/-- Modelled from the spec: `step_generator_state_update_nearest_idx`
(`internal.hpp`, not under `src/`) re-sorts the 4-slot index so that slot 0
holds the axis with minimal time; only the slot-0 invariant is used, the
remaining slots are kept in axis order. -/
def step_generator_state_update_nearest_idx (st : step_generator_state_t) :
    step_generator_state_t :=
  { st with step_event_index := { x := nearest_axis st.step_events, y := 1, z := 2, e := 3 } }

/-- The per-axis `next_step` dispatch (`step_generator_state_t.next_step_func`):
an oracle producing the axis's next step event and updating the merger state. -/
def GenOracle : Type :=
  Fin 4 → step_generator_state_t → ℚ → step_event_info_t × step_generator_state_t

/-- `generate_next_step_event` (lines 394-435): emit the head-of-heap event
(converted to relative ticks, with negative differences clamped to 0), refresh
that axis's next event through the generator oracle, and re-sort.  Returns the
emitted event (flags = 0 when no step was produced), the new state, and the
"move fully processed" status. -/
def generate_next_step_event (cfg : Config) (gen : GenOracle) (flush_time : ℚ)
    (step_state : step_generator_state_t) : step_event_t × step_generator_state_t × Bool :=
  let old_nearest_step_event_idx := step_state.step_event_index.x
  let old_nearest_step_event := (step_state.step_events.get old_nearest_step_event_idx).time
  let emitted :=
    if old_nearest_step_event ≠ 0 ∧ old_nearest_step_event ≠ DBL_MAX then
      let step_time_absolute := old_nearest_step_event
      let step_time_relative0 := step_time_absolute - step_state.previous_step_time
      let step_time_relative := if step_time_relative0 < 0 then 0 else step_time_relative0
      let time_ticks := ratTruncToInt (step_time_relative * cfg.ticks_per_sec)
      let flags0 := (step_state.step_events.get old_nearest_step_event_idx).flags
      if step_state.left_insert_start_of_move_segment ≠ 0 then
        (({ time_ticks := time_ticks
            flags := flags0 ||| STEP_EVENT_FLAG_BEGINNING_OF_MOVE_SEGMENT } : step_event_t),
         { step_state with
             left_insert_start_of_move_segment := step_state.left_insert_start_of_move_segment - 1
             previous_step_time := step_time_absolute })
      else
        (({ time_ticks := time_ticks, flags := flags0 } : step_event_t),
         { step_state with previous_step_time := step_time_absolute })
    else
      (({ time_ticks := 0, flags := 0 } : step_event_t), step_state)
  let gen_out := gen old_nearest_step_event_idx emitted.2 flush_time
  let st3 := { gen_out.2 with
    step_events := gen_out.2.step_events.set old_nearest_step_event_idx gen_out.1 }
  let st4 := step_generator_state_update_nearest_idx st3
  (emitted.1, st4, decide ((st4.step_events.get st4.step_event_index.x).time = DBL_MAX))

/-! ## The producer's buffered-step coalescing and queue writes -/

/-- One iteration of the accumulate-or-flush logic of
`process_one_move_segment_from_queue` (lines 914-944): a freshly produced step
event either replaces an empty buffer, merges into the buffered step, or forces
the buffer to be flushed to the step event queue and replaces it.  Returns the
new buffered step and the event written to the queue, if any. -/
def coalesce_buffered_step (buffered new_step_event : step_event_t) :
    step_event_t × Option step_event_t :=
  if new_step_event.flags = 0 then (buffered, none)
  else if buffered.flags = 0 then (new_step_event, none)
  else if new_step_event.time_ticks = 0
      ∧ (buffered.flags &&& new_step_event.flags)
          &&& (STEP_EVENT_FLAG_AXIS_MASK ||| STEP_EVENT_FLAG_AXIS_OTHER_MASK) = 0
      ∧ (buffered.flags ^^^ new_step_event.flags) &&& STEP_EVENT_FLAG_DIR_MASK = 0 then
    ({ buffered with flags := buffered.flags ||| new_step_event.flags }, none)
  else (new_step_event, some buffered)

/-- `append_move_discarding_step_event` (lines 719-730): enqueue an empty
(zero-tick) step event carrying the beginning-of-move-segment marker. -/
def append_move_discarding_step_event (cfg : Config) (st : step_generator_state_t)
    (s : EngineState) (extra_step_flags : ℕ) : Bool × step_generator_state_t × EngineState :=
  if s.step_event_queue.length < cfg.STEP_EVENT_QUEUE_SIZE then
    (true, { st with previous_step_time := 0 },
     { s with step_event_queue := s.step_event_queue ++
        [{ time_ticks := 0
           flags := st.flags ||| STEP_EVENT_FLAG_BEGINNING_OF_MOVE_SEGMENT ||| extra_step_flags }] })
  else (false, st, s)

/-- The end-of-queue buffered-step flush of `process_one_move_segment_from_queue`
(lines 963-972): the buffered step is written out only when its flags are
non-zero. -/
def flush_buffered_step (cfg : Config) (st : step_generator_state_t) (s : EngineState) :
    Bool × step_generator_state_t × EngineState :=
  if st.buffered_step.flags ≠ 0 then
    if s.step_event_queue.length < cfg.STEP_EVENT_QUEUE_SIZE then
      (true, { st with buffered_step := { st.buffered_step with flags := 0 } },
       { s with step_event_queue := s.step_event_queue ++ [st.buffered_step] })
    else (false, st, s)
  else (true, st, s)

/-! ## The classic step generator -/

/-- `classic_step_generator_t` (the current move segment is held by value; the
segments after it are passed explicitly where the generator may advance). -/
structure classic_step_generator_t where
  axis : Fin 4
  start_v : ℚ
  accel : ℚ
  start_pos : ℚ
  step_dir : Bool
  reached_end_of_move_queue : Bool
  current_move : move_t
deriving DecidableEq, Repr

/-- Modelled from the spec: `get_move_step_dir` (`internal.hpp`, not under
`src/`) reads the move's direction bit for the axis; per the source usage
(line 346, `!step_dir * dir_flag`) `step_dir = true` means the positive
direction, i.e. the dir bit is clear. -/
def get_move_step_dir (m : move_t) (axis : Fin 4) : Bool :=
  decide (m.flags &&& (STEP_EVENT_FLAG_X_DIR <<< (axis : ℕ)) = 0)

/-- `classic_step_generator_update` (lines 283-313, the non-CoreXY path). -/
def classic_step_generator_update (g : classic_step_generator_t) : classic_step_generator_t :=
  let current_move := g.current_move
  let axis_r := current_move.axes_r.get g.axis
  let vel := if axis_r = 0 then ((0 : ℚ), (0 : ℚ))
    else (current_move.start_v * axis_r, 2 * current_move.half_accel * axis_r)
  { g with start_v := vel.1, accel := vel.2
           start_pos := current_move.start_pos.get g.axis
           step_dir := get_move_step_dir current_move g.axis }

/-- `classic_step_generator_init` (lines 373-384): attach the generator to a
move segment and publish its direction/active bits into the merger flags.  (The
`reference_cnt` increment of line 381 is captured by the reference-counting
model below.) -/
def classic_step_generator_init (move : move_t) (axis : Fin 4)
    (st : step_generator_state_t) : classic_step_generator_t × step_generator_state_t :=
  let g : classic_step_generator_t :=
    { axis := axis, start_v := 0, accel := 0, start_pos := 0, step_dir := false
      reached_end_of_move_queue := false, current_move := move }
  let st2 := { st with flags := st.flags
      ||| (move.flags &&& (STEP_EVENT_FLAG_X_DIR <<< (axis : ℕ)))
      ||| (move.flags &&& (STEP_EVENT_FLAG_X_ACTIVE <<< (axis : ℕ))) }
  (classic_step_generator_update g, st2)

/-- One probe of the generator's current segment (the body of the loop of
`classic_step_generator_next_step_event`, lines 320-331 and 357-366): `none`
means the target is not reachable on this segment (NaN root, or the root lies
beyond the segment's duration) and the generator must advance; `some` carries
the loop's result (either the produced step event, or the no-event sentinel
when the flush horizon is exceeded). -/
def classic_step_probe (cfg : Config) (g : classic_step_generator_t)
    (st : step_generator_state_t) (flush_time : ℚ) :
    Option (step_event_info_t × classic_step_generator_t × step_generator_state_t) :=
  let half_step_dist := cfg.mm_per_half_step.get g.axis
  let current_distance := (st.current_distance.get g.axis : ℚ) * cfg.mm_per_step.get g.axis
  let next_target := current_distance + (if g.step_dir then half_step_dist else -half_step_dist)
  let next_distance := next_target - g.start_pos
  -- a `none` root models a NaN of `calc_time_for_distance`
  match cfg.calc_time_for_distance g.start_v g.accel next_distance g.step_dir with
  | none => none
  | some step_time =>
    if step_time > g.current_move.move_t + cfg.EPSILON then none
    else
      let elapsed_time := step_time + g.current_move.print_time
      if elapsed_time > flush_time then
        some ({ time := DBL_MAX, flags := 0 },
              { g with reached_end_of_move_queue := true }, st)
      else
        some ({ time := elapsed_time
                flags := (STEP_EVENT_FLAG_STEP_X <<< (g.axis : ℕ)) ||| st.flags },
              g,
              { st with current_distance := (st.current_distance.set g.axis
                  (st.current_distance.get g.axis + (if g.step_dir then 1 else -1))) })

/-- `classic_step_generator_next_step_event` (lines 315-371).  `remaining` is
the portion of the move segment queue after the generator's current segment;
advancing to the next segment consumes its head (the `reference_cnt`
bookkeeping of lines 336-338 is captured by the reference-counting model
below, and `move_segment_processed_handler` by the queue model). -/
def classic_step_generator_next_step_event (cfg : Config) (g : classic_step_generator_t)
    (st : step_generator_state_t) (flush_time : ℚ) :
    (remaining : List move_t) →
      step_event_info_t × classic_step_generator_t × step_generator_state_t × List move_t
  | [] =>
    match classic_step_probe cfg g st flush_time with
    | some r => (r.1, r.2.1, r.2.2, [])
    | none =>
      -- the segment is exhausted and the queue holds no further segment
      ({ time := DBL_MAX, flags := 0 }, { g with reached_end_of_move_queue := true }, st, [])
  | next_move :: rest =>
    match classic_step_probe cfg g st flush_time with
    | some r => (r.1, r.2.1, r.2.2, next_move :: rest)
    | none =>
      -- advance to the next segment (lines 333-354) and retry
      let g2 := classic_step_generator_update { g with current_move := next_move }
      let current_axis_dir_flag := STEP_EVENT_FLAG_X_DIR <<< (g.axis : ℕ)
      let current_axis_active_flag := STEP_EVENT_FLAG_X_ACTIVE <<< (g.axis : ℕ)
      let f1 := st.flags ^^^ (st.flags &&& current_axis_dir_flag)
      let f2 := f1 ||| (if g2.step_dir then 0 else current_axis_dir_flag)
      let f3 := f2 ^^^ (f2 &&& current_axis_active_flag)
      let f4 := f3 ||| (g2.current_move.flags &&& current_axis_active_flag)
      classic_step_generator_next_step_event cfg g2 { st with flags := f4 } flush_time rest

/-! ## Halt / stop / reset -/

/-- Modelled from the spec ("clear merger state"):
`step_generator_state_clear` (`internal.hpp`, not under `src/`) resets the
merger state to its pristine value. -/
def step_generator_state_clear : step_generator_state_t :=
  { step_events := { x := { time := 0, flags := 0 }, y := { time := 0, flags := 0 }
                     z := { time := 0, flags := 0 }, e := { time := 0, flags := 0 } }
    step_event_index := { x := 0, y := 1, z := 2, e := 3 }
    previous_step_time := 0
    current_distance := { x := 0, y := 0, z := 0, e := 0 }
    left_insert_start_of_move_segment := 0
    flags := 0
    buffered_step := { time_ticks := 0, flags := 0 }
    initialized := false }

/-- `PreciseStepping::reset_from_halt` (lines 491-496). -/
def reset_from_halt (s : EngineState) : EngineState :=
  { s with step_generator_state := step_generator_state_clear
           total_print_time := 0
           total_start_pos := { x := 0, y := 0, z := 0, e := 0 }
           total_start_pos_steps := { x := 0, y := 0, z := 0, e := 0 } }

/-- `PreciseStepping::reset_queues` (lines 1078-1099): clear both queues, reset
to the halt state, flush the planner's block buffer, zero the miss counters and
the dispatcher state, and clear `stop_pending`.  (The stepper suspend/resume
and interrupt enable/disable calls are hardware operations with no state in
this model.) -/
def reset_queues (s : EngineState) : EngineState :=
  let s1 := { s with step_event_queue := [] }
  let s2 := { s1 with move_segment_queue := [] }
  let s3 := reset_from_halt s2
  let s4 := { s3 with planner_blocks := [] }
  { s4 with step_dl_miss := 0
            step_ev_miss := 0
            left_ticks_to_next_step_event := 0
            axis_did_move := 0
            stop_pending := false }

/-! ## Reference counting (generators ↔ move segments)

The relational model of the `reference_cnt` discipline: segments are the
indices of the move segment queue, each generator holds at most one current
segment index.  `gen_attach` is the increment of `classic_step_generator_init`
(line 381), `gen_advance` the decrement/increment pair of
`classic_step_generator_next_step_event` (lines 336-338), `queue_push` the
appending of a fresh segment with `reference_cnt = 0`
(`append_move_segment_to_queue`, line 131). -/

structure refcount_state where
  reference_cnt : List ℕ
  current_move : xyze (Option ℕ)
deriving DecidableEq, Repr

/-- Number of generators whose `current_move` points at segment `i`. -/
def pointing_count (s : refcount_state) (i : ℕ) : ℕ :=
  s.current_move.toList.countP (fun o => decide (o = some i))

/-- Reference-count soundness: each segment's `reference_cnt` equals the number
of generators pointing at it. -/
def refcount_sound (s : refcount_state) : Prop :=
  ∀ i < s.reference_cnt.length, s.reference_cnt.getD i 0 = pointing_count s i

/-- `classic_step_generator_init`'s attach: set `current_move` and increment
the segment's `reference_cnt` (line 381). -/
def gen_attach (a : Fin 4) (i : ℕ) (s : refcount_state) : refcount_state :=
  { reference_cnt := s.reference_cnt.set i (s.reference_cnt.getD i 0 + 1)
    current_move := s.current_move.set a (some i) }

/-- The segment advance of `classic_step_generator_next_step_event` (lines
333-338): when the queue holds a next segment, decrement the old segment's
count, move the generator to the next segment, increment its count. -/
def gen_advance (a : Fin 4) (s : refcount_state) : refcount_state :=
  match s.current_move.get a with
  | none => s
  | some i =>
    if i + 1 < s.reference_cnt.length then
      let r1 := s.reference_cnt.set i (s.reference_cnt.getD i 0 - 1)
      { reference_cnt := r1.set (i + 1) (r1.getD (i + 1) 0 + 1)
        current_move := s.current_move.set a (some (i + 1)) }
    else s

/-- Pushing a fresh segment: `append_move_segment_to_queue` initialises
`reference_cnt = 0` (line 131). -/
def queue_push (s : refcount_state) : refcount_state :=
  { s with reference_cnt := s.reference_cnt ++ [0] }

/-- The initial (cleared) generator/queue state: `n` queued segments, no
generator attached. -/
def refcount_init (n : ℕ) : refcount_state :=
  { reference_cnt := List.replicate n 0
    current_move := { x := none, y := none, z := none, e := none } }

/-- The states reachable by the engine's reference-count operations: attach is
only performed on a generator that holds no segment (the generators are
initialised exactly once, from the cleared state, by
`step_generator_state_init`). -/
inductive refcount_reachable : refcount_state → Prop
  | init (n : ℕ) : refcount_reachable (refcount_init n)
  | attach {s : refcount_state} (a : Fin 4) (i : ℕ) :
      refcount_reachable s → s.current_move.get a = none → i < s.reference_cnt.length →
      refcount_reachable (gen_attach a i s)
  | advance {s : refcount_state} (a : Fin 4) :
      refcount_reachable s → refcount_reachable (gen_advance a s)
  | push {s : refcount_state} :
      refcount_reachable s → refcount_reachable (queue_push s)

/-! ## Helper lemmas on the segment pushes -/

theorem push_move_segment_snd (cfg : Config) (m : move_t) (s : EngineState) :
    (push_move_segment cfg m s).2 =
      { s with move_segment_queue := (push_move_segment cfg m s).2.move_segment_queue } := by
  unfold push_move_segment
  split <;> rfl

theorem push_move_segment_of_room (cfg : Config) (m : move_t) (s : EngineState)
    (h : s.move_segment_queue.length < cfg.MOVE_SEGMENT_QUEUE_SIZE) :
    push_move_segment cfg m s =
      (true, { s with move_segment_queue := s.move_segment_queue ++ [m] }) := by
  unfold push_move_segment move_segment_queue_free_slots
  rw [if_pos (by omega)]

theorem push_accel_phase_of_zero (cfg : Config) (b : block_t)
    (decel_dist cruise_dist cruise_v : ℚ) (c : seg_cursor) :
    push_accel_phase cfg b 0 decel_dist cruise_dist cruise_v c = c := by
  unfold push_accel_phase
  simp

theorem push_cruise_phase_of_zero (cfg : Config) (b : block_t)
    (accel_dist decel_dist cruise_v : ℚ) (c : seg_cursor) :
    push_cruise_phase cfg b accel_dist decel_dist 0 cruise_v c = c := by
  unfold push_cruise_phase
  simp

theorem push_decel_phase_of_zero (cfg : Config) (b : block_t)
    (accel_dist cruise_dist cruise_v : ℚ) (c : seg_cursor) :
    push_decel_phase cfg b accel_dist 0 cruise_dist cruise_v c = c := by
  unfold push_decel_phase
  simp

theorem push_accel_phase_spec (cfg : Config) (b : block_t)
    (accel_dist decel_dist cruise_dist cruise_v : ℚ) (c : seg_cursor)
    (h : accel_dist ≠ 0)
    (hroom : c.st.move_segment_queue.length < cfg.MOVE_SEGMENT_QUEUE_SIZE) :
    push_accel_phase cfg b accel_dist decel_dist cruise_dist cruise_v c =
      { st := { c.st with move_segment_queue := c.st.move_segment_queue ++
          [accel_segment cfg b decel_dist cruise_dist cruise_v c.print_time c.start_pos] }
        print_time := c.print_time
          + (accel_segment cfg b decel_dist cruise_dist cruise_v c.print_time c.start_pos).move_t
        start_pos := calc_end_position c.start_pos
          (accel_segment cfg b decel_dist cruise_dist cruise_v c.print_time c.start_pos).axes_r
          accel_dist } := by
  unfold push_accel_phase
  rw [if_pos h]
  simp only [push_move_segment_of_room cfg _ _ hroom]

theorem push_cruise_phase_spec (cfg : Config) (b : block_t)
    (accel_dist decel_dist cruise_dist cruise_v : ℚ) (c : seg_cursor)
    (h : cruise_dist ≠ 0)
    (hroom : c.st.move_segment_queue.length < cfg.MOVE_SEGMENT_QUEUE_SIZE) :
    push_cruise_phase cfg b accel_dist decel_dist cruise_dist cruise_v c =
      { st := { c.st with move_segment_queue := c.st.move_segment_queue ++
          [cruise_segment cfg b accel_dist decel_dist cruise_dist cruise_v c.print_time c.start_pos] }
        print_time := c.print_time
          + (cruise_segment cfg b accel_dist decel_dist cruise_dist cruise_v c.print_time c.start_pos).move_t
        start_pos := calc_end_position c.start_pos
          (cruise_segment cfg b accel_dist decel_dist cruise_dist cruise_v c.print_time c.start_pos).axes_r
          cruise_dist } := by
  unfold push_cruise_phase
  rw [if_pos h]
  simp only [push_move_segment_of_room cfg _ _ hroom]

theorem push_decel_phase_spec (cfg : Config) (b : block_t)
    (accel_dist decel_dist cruise_dist cruise_v : ℚ) (c : seg_cursor)
    (h : decel_dist ≠ 0)
    (hroom : c.st.move_segment_queue.length < cfg.MOVE_SEGMENT_QUEUE_SIZE) :
    push_decel_phase cfg b accel_dist decel_dist cruise_dist cruise_v c =
      { st := { c.st with move_segment_queue := c.st.move_segment_queue ++
          [decel_segment cfg b accel_dist cruise_dist cruise_v c.print_time c.start_pos] }
        print_time := c.print_time
          + (decel_segment cfg b accel_dist cruise_dist cruise_v c.print_time c.start_pos).move_t
        start_pos := c.start_pos } := by
  unfold push_decel_phase
  rw [if_pos h]
  simp only [push_move_segment_of_room cfg _ _ hroom]

/-! ## Sample configuration and states for the concrete instances -/

/-- A sample configuration (1 MHz stepper timer, 100 steps/mm, ε = 10⁻⁶). -/
def cfg0 : Config :=
  { ticks_per_sec := 1000000
    EPSILON_DISTANCE := 1/1000000
    EPSILON := 1/1000000
    sqrtQ := fun _ => 0
    mm_per_step := { x := 1/100, y := 1/100, z := 1/100, e := 1/100 }
    mm_per_half_step := { x := 1/200, y := 1/200, z := 1/200, e := 1/200 }
    calc_time_for_distance := fun _ _ _ _ => none
    MOVE_SEGMENT_QUEUE_MIN_FREE_SLOTS := 4
    MOVE_SEGMENT_QUEUE_SIZE := 16
    STEP_EVENT_QUEUE_SIZE := 64 }

/-- A pristine engine state. -/
def engine0 : EngineState :=
  { move_segment_queue := []
    step_event_queue := []
    total_print_time := 0
    total_start_pos := { x := 0, y := 0, z := 0, e := 0 }
    total_start_pos_steps := { x := 0, y := 0, z := 0, e := 0 }
    step_generator_state := step_generator_state_clear
    planner_blocks := []
    axis_did_move := 0
    stop_pending := false
    step_dl_miss := 0
    step_ev_miss := 0
    left_ticks_to_next_step_event := 0
    count_position := { x := 0, y := 0, z := 0, e := 0 } }

/-- The trapezoid block of scenario S2: 100 mm along +X,
start/end speed 0, nominal 200 mm/s, acceleration 1000 mm/s². -/
def blockS2 : block_t :=
  { steps := { x := 10000, y := 0, z := 0, e := 0 }
    direction_bits := 0
    millimeters := 100
    acceleration := 1000
    initial_speed := 0
    final_speed := 0
    nominal_speed := 200 }

/-! ## Claim C7 -/

/-- Claim C7 counterexample: `reset_queues` zeroes the `step_dl_miss` miss
counter (the claim's "counters unchanged" fails on a state whose counter is 3). -/
theorem C7_counterexample_miss_counter_cleared :
    (reset_queues { engine0 with step_dl_miss := 3 }).step_dl_miss
      ≠ ({ engine0 with step_dl_miss := 3 } : EngineState).step_dl_miss := by
  simp [reset_queues, reset_from_halt, engine0]

/-- Claim C7 (amended): after `stop_pending` is handled by `reset_queues`, the
engine state equals a fresh-halt state: both queues and the planner block
buffer empty, `total_print_time = 0`, start positions zeroed, merger state
cleared, `axis_did_move = 0`, `stop_pending` cleared, the dispatcher's
remaining-tick counter zeroed, the authoritative step position counters
unchanged — and, unlike the claim's "counters unchanged", the `step_dl_miss`
and `step_ev_miss` miss counters are zeroed. -/
theorem C7_stop_safety_reset_queues (s : EngineState) :
    (reset_queues s).move_segment_queue = []
    ∧ (reset_queues s).step_event_queue = []
    ∧ (reset_queues s).total_print_time = 0
    ∧ (reset_queues s).total_start_pos = { x := 0, y := 0, z := 0, e := 0 }
    ∧ (reset_queues s).total_start_pos_steps = { x := 0, y := 0, z := 0, e := 0 }
    ∧ (reset_queues s).step_generator_state = step_generator_state_clear
    ∧ (reset_queues s).planner_blocks = []
    ∧ (reset_queues s).axis_did_move = 0
    ∧ (reset_queues s).stop_pending = false
    ∧ (reset_queues s).left_ticks_to_next_step_event = 0
    ∧ (reset_queues s).count_position = s.count_position
    ∧ (reset_queues s).step_dl_miss = 0
    ∧ (reset_queues s).step_ev_miss = 0 := by
  refine ⟨rfl, rfl, rfl, rfl, rfl, rfl, rfl, rfl, rfl, rfl, rfl, rfl, rfl⟩

/-! ## Claim C4 -/

/-- Claim C4: when the move segment queue has fewer free slots than the number
of present phases plus `MOVE_SEGMENT_QUEUE_MIN_FREE_SLOTS`,
`append_move_segments_to_queue` returns `false` leaving the whole engine state
(move segment queue, `total_print_time`, `total_start_pos`,
`total_start_pos_steps`, ...) unchanged, and the caller
(`process_queue_of_blocks`) keeps the block in the planner queue for a later
retry. -/
theorem C4_backpressure_rejects_and_preserves (cfg : Config) (b : block_t) (s : EngineState)
    (rest : List block_t) (hq : s.planner_blocks = b :: rest)
    (h : move_segment_queue_free_slots cfg s
        < move_blocks_required cfg b + cfg.MOVE_SEGMENT_QUEUE_MIN_FREE_SLOTS) :
    append_move_segments_to_queue cfg b s = (false, s)
    ∧ process_block_intake cfg s = s := by
  have happ : append_move_segments_to_queue cfg b s = (false, s) := by
    simp only [append_move_segments_to_queue]
    rw [if_pos h]
  refine ⟨happ, ?_⟩
  unfold process_block_intake
  rw [hq]
  simp only [happ]
  simp

/-- A configuration whose move segment queue has no room at all. -/
def cfgTiny : Config := { cfg0 with MOVE_SEGMENT_QUEUE_SIZE := 0 }

/-- The concrete distances of `blockS2` under `cfg0` (20 mm accel, 20 mm decel,
60 mm cruise at 200 mm/s). -/
theorem blockS2_dists (cfg : Config) (heps : cfg.EPSILON_DISTANCE = 1/1000000) :
    block_move_dists cfg blockS2 = (20, 20, 60, 200) := by
  simp only [block_move_dists, calc_distance_required_to_reach_cruise_velocity_clamped,
    calc_distance_required_to_reach_cruise_velocity, SQR, blockS2, heps]
  norm_num

theorem C4_backpressure_witness :
    append_move_segments_to_queue cfgTiny blockS2 { engine0 with planner_blocks := [blockS2] }
      = (false, { engine0 with planner_blocks := [blockS2] })
    ∧ process_block_intake cfgTiny { engine0 with planner_blocks := [blockS2] }
      = { engine0 with planner_blocks := [blockS2] } :=
  C4_backpressure_rejects_and_preserves cfgTiny blockS2 _ [] rfl (by
    rw [move_blocks_required, blockS2_dists cfgTiny (by norm_num [cfgTiny, cfg0])]
    norm_num [move_segment_queue_free_slots, cfgTiny, cfg0, engine0])

/-! ## Claim C8 -/

theorem push_accel_phase_st_shape (cfg : Config) (b : block_t)
    (accel_dist decel_dist cruise_dist cruise_v : ℚ) (c : seg_cursor) :
    ∃ q, (push_accel_phase cfg b accel_dist decel_dist cruise_dist cruise_v c).st
      = { c.st with move_segment_queue := q } := by
  unfold push_accel_phase push_move_segment
  split
  · split
    · exact ⟨_, rfl⟩
    · exact ⟨c.st.move_segment_queue, rfl⟩
  · exact ⟨c.st.move_segment_queue, rfl⟩

theorem push_cruise_phase_st_shape (cfg : Config) (b : block_t)
    (accel_dist decel_dist cruise_dist cruise_v : ℚ) (c : seg_cursor) :
    ∃ q, (push_cruise_phase cfg b accel_dist decel_dist cruise_dist cruise_v c).st
      = { c.st with move_segment_queue := q } := by
  unfold push_cruise_phase push_move_segment
  split
  · split
    · exact ⟨_, rfl⟩
    · exact ⟨c.st.move_segment_queue, rfl⟩
  · exact ⟨c.st.move_segment_queue, rfl⟩

theorem push_decel_phase_st_shape (cfg : Config) (b : block_t)
    (accel_dist decel_dist cruise_dist cruise_v : ℚ) (c : seg_cursor) :
    ∃ q, (push_decel_phase cfg b accel_dist decel_dist cruise_dist cruise_v c).st
      = { c.st with move_segment_queue := q } := by
  unfold push_decel_phase push_move_segment
  split
  · split
    · exact ⟨_, rfl⟩
    · exact ⟨c.st.move_segment_queue, rfl⟩
  · exact ⟨c.st.move_segment_queue, rfl⟩

theorem push_accel_phase_st_steps (cfg : Config) (b : block_t)
    (accel_dist decel_dist cruise_dist cruise_v : ℚ) (c : seg_cursor) :
    (push_accel_phase cfg b accel_dist decel_dist cruise_dist cruise_v c).st.total_start_pos_steps
      = c.st.total_start_pos_steps := by
  obtain ⟨q, hq⟩ := push_accel_phase_st_shape cfg b accel_dist decel_dist cruise_dist cruise_v c
  rw [hq]

theorem push_cruise_phase_st_steps (cfg : Config) (b : block_t)
    (accel_dist decel_dist cruise_dist cruise_v : ℚ) (c : seg_cursor) :
    (push_cruise_phase cfg b accel_dist decel_dist cruise_dist cruise_v c).st.total_start_pos_steps
      = c.st.total_start_pos_steps := by
  obtain ⟨q, hq⟩ := push_cruise_phase_st_shape cfg b accel_dist decel_dist cruise_dist cruise_v c
  rw [hq]

theorem push_decel_phase_st_steps (cfg : Config) (b : block_t)
    (accel_dist decel_dist cruise_dist cruise_v : ℚ) (c : seg_cursor) :
    (push_decel_phase cfg b accel_dist decel_dist cruise_dist cruise_v c).st.total_start_pos_steps
      = c.st.total_start_pos_steps := by
  obtain ⟨q, hq⟩ := push_decel_phase_st_shape cfg b accel_dist decel_dist cruise_dist cruise_v c
  rw [hq]

/-- Claim C8: after every successful `append_move_segments_to_queue`,
`total_start_pos_steps` equals its previous value plus the block's
direction-signed integer step counts, and the millimeter `total_start_pos` is
recomputed per axis from the integer step accumulator
(`total_start_pos[i] = total_start_pos_steps[i] · mm_per_step[i]`). -/
theorem C8_integer_authoritative_position (cfg : Config) (b : block_t) (s r : EngineState)
    (h : append_move_segments_to_queue cfg b s = (true, r)) :
    r.total_start_pos_steps
      = xyze.zipWith (· + ·) s.total_start_pos_steps (get_oriented_steps_from_block b)
    ∧ r.total_start_pos = convert_oriented_steps_to_distance cfg r.total_start_pos_steps
    ∧ ∀ i : Fin 4, r.total_start_pos.get i
        = (r.total_start_pos_steps.get i : ℚ) * cfg.mm_per_step.get i := by
  simp only [append_move_segments_to_queue] at h
  split at h
  · exact absurd (congrArg Prod.fst h) (by simp)
  · rw [Prod.mk.injEq] at h
    obtain ⟨-, hX⟩ := h
    subst hX
    refine ⟨?_, rfl, ?_⟩
    · show xyze.zipWith (· + ·) _ (get_oriented_steps_from_block b)
        = xyze.zipWith (· + ·) s.total_start_pos_steps (get_oriented_steps_from_block b)
      rw [push_decel_phase_st_steps, push_cruise_phase_st_steps, push_accel_phase_st_steps]
    · intro i
      fin_cases i <;> rfl

theorem C8_integer_authoritative_position_witness :
    (append_move_segments_to_queue cfg0 blockS2 engine0).2.total_start_pos_steps
      = xyze.zipWith (· + ·) engine0.total_start_pos_steps
          (get_oriented_steps_from_block blockS2) := by
  have hcond : ¬ (move_segment_queue_free_slots cfg0 engine0
      < move_blocks_required cfg0 blockS2 + cfg0.MOVE_SEGMENT_QUEUE_MIN_FREE_SLOTS) := by
    simp only [move_blocks_required, blockS2_dists cfg0 (by norm_num [cfg0])]
    norm_num [move_segment_queue_free_slots, cfg0, engine0]
  have hfst : (append_move_segments_to_queue cfg0 blockS2 engine0).1 = true := by
    simp only [append_move_segments_to_queue, if_neg hcond]
  exact (C8_integer_authoritative_position cfg0 blockS2 engine0 _
    (Prod.ext hfst rfl)).1

/-! ## Claim C1 -/

/-- Claim C1 counterexample and amended theorem use this generator oracle: an
axis that reports no further event. -/
def genNone : GenOracle := fun _ st _ => ({ time := DBL_MAX, flags := 0 }, st)

/-- A merger state whose head-of-heap event is 1.5 ticks (at 1 MHz) after the
previously emitted event. -/
def stC1x : step_generator_state_t :=
  { step_generator_state_clear with
      previous_step_time := 0
      step_events := { x := { time := 3/2000000, flags := STEP_EVENT_FLAG_STEP_X }
                       y := { time := DBL_MAX, flags := 0 }
                       z := { time := DBL_MAX, flags := 0 }
                       e := { time := DBL_MAX, flags := 0 } } }

/-- Claim C1 counterexample: with the head event 1.5 ticks after the previous
one, `generate_next_step_event` emits `time_ticks = 1` (the `int32_t` cast
truncates), while the claim's `round((time − previous_step_time)·ticks_per_sec)`
is 2. -/
theorem C1_counterexample_cast_is_not_round :
    (generate_next_step_event cfg0 genNone 0 stC1x).1.time_ticks
      ≠ round (((stC1x.step_events.get stC1x.step_event_index.x).time
          - stC1x.previous_step_time) * cfg0.ticks_per_sec) := by
  have hlhs : (generate_next_step_event cfg0 genNone 0 stC1x).1.time_ticks = 1 := by
    simp only [generate_next_step_event, stC1x, step_generator_state_clear, xyze.get, cfg0,
      ratTruncToInt, DBL_MAX]
    norm_num
  have hrhs : round (((stC1x.step_events.get stC1x.step_event_index.x).time
      - stC1x.previous_step_time) * cfg0.ticks_per_sec) = 2 := by
    simp only [stC1x, step_generator_state_clear, xyze.get, cfg0]
    rw [round_eq]
    norm_num
  rw [hlhs, hrhs]
  decide

/-- Claim C1 (amended): the merger's float→tick conversion point: whenever
`generate_next_step_event` emits a step event (head-of-heap time non-zero and
not the no-event sentinel) with `time ≥ previous_step_time`, the emitted
`time_ticks` equals the `int32_t` cast of
`(time − previous_step_time) · ticks_per_sec`, i.e. its truncation toward zero
— which on the clamped non-negative difference is the floor, not `round`. -/
theorem C1_tick_conversion_truncates (cfg : Config) (gen : GenOracle) (flush_time : ℚ)
    (st : step_generator_state_t)
    (ht0 : (st.step_events.get st.step_event_index.x).time ≠ 0)
    (htmax : (st.step_events.get st.step_event_index.x).time ≠ DBL_MAX)
    (hmono : st.previous_step_time ≤ (st.step_events.get st.step_event_index.x).time)
    (htps : 0 ≤ cfg.ticks_per_sec) :
    (generate_next_step_event cfg gen flush_time st).1.time_ticks
      = ⌊((st.step_events.get st.step_event_index.x).time - st.previous_step_time)
          * cfg.ticks_per_sec⌋ := by
  have hrel : (0:ℚ) ≤ (st.step_events.get st.step_event_index.x).time - st.previous_step_time :=
    sub_nonneg.mpr hmono
  have hprod : (0:ℚ) ≤ ((st.step_events.get st.step_event_index.x).time
      - st.previous_step_time) * cfg.ticks_per_sec := mul_nonneg hrel htps
  simp only [generate_next_step_event]
  rw [if_pos ⟨ht0, htmax⟩, if_neg (not_lt.mpr hrel)]
  split
  · show ratTruncToInt _ = _
    unfold ratTruncToInt
    rw [if_pos hprod]
  · show ratTruncToInt _ = _
    unfold ratTruncToInt
    rw [if_pos hprod]

/-- A merger state whose head-of-heap event is exactly 1000 ticks after the
previously emitted event. -/
def stC1 : step_generator_state_t :=
  { step_generator_state_clear with
      previous_step_time := 0
      step_events := { x := { time := 1/1000, flags := STEP_EVENT_FLAG_STEP_X }
                       y := { time := DBL_MAX, flags := 0 }
                       z := { time := DBL_MAX, flags := 0 }
                       e := { time := DBL_MAX, flags := 0 } } }

theorem C1_tick_conversion_truncates_witness :
    (generate_next_step_event cfg0 genNone 0 stC1).1.time_ticks
      = ⌊((stC1.step_events.get stC1.step_event_index.x).time - stC1.previous_step_time)
          * cfg0.ticks_per_sec⌋ :=
  C1_tick_conversion_truncates cfg0 genNone 0 stC1
    (by norm_num [stC1, step_generator_state_clear, xyze.get])
    (by norm_num [stC1, step_generator_state_clear, xyze.get, DBL_MAX])
    (by norm_num [stC1, step_generator_state_clear, xyze.get])
    (by norm_num [cfg0])

/-! ## Claim C2 -/

/-- Claim C2: the merger never emits a negative relative delay.  Whenever the
head event's time minus `previous_step_time` is negative, the difference is
clamped to 0 before the tick conversion; every event `generate_next_step_event`
produces has `time_ticks ≥ 0`; and for any step event queue contents whose
events all carry non-negative ticks, the prefix sums of `time_ticks` are
non-decreasing. -/
theorem C2_monotonic_time (cfg : Config) (gen : GenOracle) (flush_time : ℚ)
    (st : step_generator_state_t) (htps : 0 ≤ cfg.ticks_per_sec) :
    0 ≤ (generate_next_step_event cfg gen flush_time st).1.time_ticks
    ∧ ((st.step_events.get st.step_event_index.x).time - st.previous_step_time < 0 →
        (generate_next_step_event cfg gen flush_time st).1.time_ticks = 0)
    ∧ ∀ (evs : List step_event_t), (∀ ev ∈ evs, 0 ≤ ev.time_ticks) →
        ∀ i j : ℕ, i ≤ j → ticksUpTo evs i ≤ ticksUpTo evs j := by
  have htrunc : ∀ q : ℚ, 0 ≤ q → 0 ≤ ratTruncToInt q := by
    intro q hq
    unfold ratTruncToInt
    rw [if_pos hq]
    exact Int.floor_nonneg.mpr hq
  have hclamp : ∀ r : ℚ, 0 ≤ (if r < 0 then 0 else r) := by
    intro r
    split
    · exact le_refl 0
    · exact le_of_not_lt (by assumption)
  refine ⟨?_, ?_, ?_⟩
  · simp only [generate_next_step_event]
    split
    · split
      · exact htrunc _ (mul_nonneg (hclamp _) htps)
      · exact htrunc _ (mul_nonneg (hclamp _) htps)
    · exact le_refl 0
  · intro hneg
    have h0 : ratTruncToInt (0 * cfg.ticks_per_sec) = 0 := by
      unfold ratTruncToInt
      rw [zero_mul, if_pos (le_refl (0:ℚ))]
      exact Int.floor_zero
    simp only [generate_next_step_event, if_pos hneg]
    split
    · split
      · exact h0
      · exact h0
    · rfl
  · intro evs hnn i j hij
    have key : ticksUpTo evs j = ticksUpTo evs i
        + (((evs.take j).drop i).map step_event_t.time_ticks).sum := by
      unfold ticksUpTo
      conv_lhs => rw [← List.take_append_drop i (evs.take j)]
      rw [List.map_append, List.sum_append, List.take_take, min_eq_left hij]
    rw [key]
    have hpos : 0 ≤ (((evs.take j).drop i).map step_event_t.time_ticks).sum := by
      apply List.sum_nonneg
      intro x hx
      obtain ⟨ev, hev, rfl⟩ := List.mem_map.mp hx
      exact hnn ev (List.take_subset j evs (List.drop_subset i (evs.take j) hev))
    omega

theorem C2_monotonic_time_witness :
    0 ≤ (generate_next_step_event cfg0 genNone 0 stC1).1.time_ticks :=
  (C2_monotonic_time cfg0 genNone 0 stC1 (by norm_num [cfg0])).1

/-! ## Bitwise helpers -/

theorem lor_ne_zero_left (a b : ℕ) (ha : a ≠ 0) : a ||| b ≠ 0 := by
  intro h
  rcases Nat.exists_most_significant_bit ha with ⟨i, hi, -⟩
  have hb : (a ||| b).testBit i = true := by simp [Nat.testBit_or, hi]
  rw [h] at hb
  simp at hb

theorem two_pow_lor_and_self (k f : ℕ) : ((2 ^ k ||| f) &&& 2 ^ k) ≠ 0 := by
  intro hz
  have h : (2 ^ k ||| f).testBit k = true := by
    simp [Nat.testBit_or, Nat.testBit_two_pow_self]
  have hand := Nat.testBit_and (2 ^ k ||| f) (2 ^ k) k
  rw [hz] at hand
  simp [h, Nat.testBit_two_pow_self] at hand

theorem or_two_pow_or_and_ne_zero (f e k : ℕ) : ((f ||| 2 ^ k ||| e) &&& 2 ^ k) ≠ 0 := by
  intro hz
  have h : (f ||| 2 ^ k ||| e).testBit k = true := by
    simp [Nat.testBit_or, Nat.testBit_two_pow_self]
  have hand := Nat.testBit_and (f ||| 2 ^ k ||| e) (2 ^ k) k
  rw [hz] at hand
  simp [h, Nat.testBit_two_pow_self] at hand

/-! ## Claim C6 -/

/-- The coalescing rule as the claim words it ("shares no step or active flag
bit"): identical to `coalesce_buffered_step` except that the overlap mask uses
the axis-active bits in place of the per-move-segment bits. -/
def coalesce_buffered_step_claim (buffered new_step_event : step_event_t) :
    step_event_t × Option step_event_t :=
  if new_step_event.flags = 0 then (buffered, none)
  else if buffered.flags = 0 then (new_step_event, none)
  else if new_step_event.time_ticks = 0
      ∧ (buffered.flags &&& new_step_event.flags)
          &&& (STEP_EVENT_FLAG_AXIS_MASK ||| STEP_EVENT_FLAG_AXIS_ACTIVE_MASK) = 0
      ∧ (buffered.flags ^^^ new_step_event.flags) &&& STEP_EVENT_FLAG_DIR_MASK = 0 then
    ({ buffered with flags := buffered.flags ||| new_step_event.flags }, none)
  else (new_step_event, some buffered)

/-- A buffered X step with X and Y marked active. -/
def evC6buffered : step_event_t :=
  { time_ticks := 5
    flags := STEP_EVENT_FLAG_STEP_X ||| STEP_EVENT_FLAG_X_ACTIVE ||| STEP_EVENT_FLAG_Y_ACTIVE }

/-- A simultaneous Y step with the same direction and active bits. -/
def evC6new : step_event_t :=
  { time_ticks := 0
    flags := STEP_EVENT_FLAG_STEP_Y ||| STEP_EVENT_FLAG_X_ACTIVE ||| STEP_EVENT_FLAG_Y_ACTIVE }

/-- Claim C6 counterexample: two simultaneous X and Y steps necessarily share
their axis-active bits, yet the code merges them into one event carrying both
step flags — so "shares no step or active flag bit" is not the code's merge
condition (the code checks the step bits and the per-move-segment flags, not
the active bits); the claim's rule would flush instead of merging. -/
theorem C6_counterexample_active_bits_do_not_block :
    coalesce_buffered_step evC6buffered evC6new
      = ({ time_ticks := 5
           flags := STEP_EVENT_FLAG_STEP_X ||| STEP_EVENT_FLAG_STEP_Y
             ||| STEP_EVENT_FLAG_X_ACTIVE ||| STEP_EVENT_FLAG_Y_ACTIVE }, none)
    ∧ coalesce_buffered_step evC6buffered evC6new
      ≠ coalesce_buffered_step_claim evC6buffered evC6new := by
  constructor
  · decide
  · decide

/-- Claim C6 (amended): with a non-empty buffer and a produced event, the
producer merges the new event into `buffered_step` by ORing flags exactly when
its `time_ticks` is 0, it shares no step bit and no per-move-segment
(beginning-of-move-segment / end-of-motion) flag bit with the buffer, and its
direction bits are identical to the buffer's; in every other case the buffer is
flushed to the step event queue and replaced by the new event. -/
theorem C6_coalescing_rule (buffered new_ev : step_event_t)
    (hb : buffered.flags ≠ 0) (hn : new_ev.flags ≠ 0) :
    (coalesce_buffered_step buffered new_ev
        = ({ buffered with flags := buffered.flags ||| new_ev.flags }, none)
      ↔ (new_ev.time_ticks = 0
          ∧ (buffered.flags &&& new_ev.flags)
              &&& (STEP_EVENT_FLAG_AXIS_MASK ||| STEP_EVENT_FLAG_AXIS_OTHER_MASK) = 0
          ∧ (buffered.flags ^^^ new_ev.flags) &&& STEP_EVENT_FLAG_DIR_MASK = 0))
    ∧ (¬ (new_ev.time_ticks = 0
          ∧ (buffered.flags &&& new_ev.flags)
              &&& (STEP_EVENT_FLAG_AXIS_MASK ||| STEP_EVENT_FLAG_AXIS_OTHER_MASK) = 0
          ∧ (buffered.flags ^^^ new_ev.flags) &&& STEP_EVENT_FLAG_DIR_MASK = 0)
        → coalesce_buffered_step buffered new_ev = (new_ev, some buffered)) := by
  unfold coalesce_buffered_step
  rw [if_neg hn, if_neg hb]
  by_cases hc : new_ev.time_ticks = 0
      ∧ (buffered.flags &&& new_ev.flags)
          &&& (STEP_EVENT_FLAG_AXIS_MASK ||| STEP_EVENT_FLAG_AXIS_OTHER_MASK) = 0
      ∧ (buffered.flags ^^^ new_ev.flags) &&& STEP_EVENT_FLAG_DIR_MASK = 0
  · rw [if_pos hc]
    exact ⟨iff_of_true rfl hc, fun hnc => absurd hc hnc⟩
  · rw [if_neg hc]
    refine ⟨iff_of_false ?_ hc, fun _ => rfl⟩
    intro heq
    rw [Prod.mk.injEq] at heq
    exact (Option.some_ne_none buffered) heq.2

theorem C6_coalescing_rule_witness :
    coalesce_buffered_step evC6buffered evC6new
        = ({ evC6buffered with flags := evC6buffered.flags ||| evC6new.flags }, none)
      ↔ (evC6new.time_ticks = 0
          ∧ (evC6buffered.flags &&& evC6new.flags)
              &&& (STEP_EVENT_FLAG_AXIS_MASK ||| STEP_EVENT_FLAG_AXIS_OTHER_MASK) = 0
          ∧ (evC6buffered.flags ^^^ evC6new.flags) &&& STEP_EVENT_FLAG_DIR_MASK = 0) :=
  (C6_coalescing_rule evC6buffered evC6new (by decide) (by decide)).1

/-! ## Claim C10 -/

/-- A `classic_step_probe` result is either the no-event sentinel or an event
carrying its axis's step bit. -/
theorem classic_step_probe_step_bit (cfg : Config) (g : classic_step_generator_t)
    (st : step_generator_state_t) (ft : ℚ)
    (r : step_event_info_t × classic_step_generator_t × step_generator_state_t)
    (h : classic_step_probe cfg g st ft = some r) :
    r.1.time = DBL_MAX
    ∨ r.1.flags &&& (STEP_EVENT_FLAG_STEP_X <<< (g.axis : ℕ)) ≠ 0 := by
  simp only [classic_step_probe] at h
  split at h
  · exact absurd h (by simp)
  · split at h
    · exact absurd h (by simp)
    · split at h
      · left
        simp only [Option.some.injEq] at h
        rw [← h]
      · right
        simp only [Option.some.injEq] at h
        rw [← h]
        show ((STEP_EVENT_FLAG_STEP_X <<< (g.axis : ℕ)) ||| st.flags)
            &&& (STEP_EVENT_FLAG_STEP_X <<< (g.axis : ℕ)) ≠ 0
        have hpow : STEP_EVENT_FLAG_STEP_X <<< (g.axis : ℕ) = 2 ^ (g.axis : ℕ) := by
          simp [STEP_EVENT_FLAG_STEP_X, Nat.shiftLeft_eq]
        rw [hpow]
        exact two_pow_lor_and_self _ _

/-- `classic_step_generator_update` does not change the generator's axis. -/
theorem classic_step_generator_update_axis (g : classic_step_generator_t) :
    (classic_step_generator_update g).axis = g.axis := rfl

/-- Claim C10: the step event queue never receives an event with zero flags —
(a) an event flushed from the coalescing buffer has non-zero flags; (b) the
end-of-queue buffered-step flush only appends non-zero events; (c) a
move-discarding event always carries the beginning-of-move-segment bit; (d) a
classic-generator result is the no-event sentinel or carries its axis's step
bit; (e) the merger produces non-zero flags whenever the head slot is a real
event with non-zero flags, and `flags = 0` is exactly the internal "no step
produced" marker used when the head slot is the 0/`DBL_MAX` sentinel. -/
theorem C10_flags_nonzero_invariant :
    (∀ buffered new_ev ev : step_event_t,
        (coalesce_buffered_step buffered new_ev).2 = some ev → ev.flags ≠ 0)
    ∧ (∀ (cfg : Config) (st : step_generator_state_t) (s : EngineState),
        ∀ ev ∈ (flush_buffered_step cfg st s).2.2.step_event_queue,
          ev ∈ s.step_event_queue ∨ ev.flags ≠ 0)
    ∧ (∀ (cfg : Config) (st : step_generator_state_t) (s : EngineState) (extra : ℕ),
        ∀ ev ∈ (append_move_discarding_step_event cfg st s extra).2.2.step_event_queue,
          ev ∈ s.step_event_queue
          ∨ ev.flags &&& STEP_EVENT_FLAG_BEGINNING_OF_MOVE_SEGMENT ≠ 0)
    ∧ (∀ (cfg : Config) (g : classic_step_generator_t) (st : step_generator_state_t)
        (ft : ℚ) (rem : List move_t),
        (classic_step_generator_next_step_event cfg g st ft rem).1.time = DBL_MAX
        ∨ (classic_step_generator_next_step_event cfg g st ft rem).1.flags
            &&& (STEP_EVENT_FLAG_STEP_X <<< (g.axis : ℕ)) ≠ 0)
    ∧ (∀ (cfg : Config) (gen : GenOracle) (ft : ℚ) (st : step_generator_state_t),
        ((st.step_events.get st.step_event_index.x).time ≠ 0
          → (st.step_events.get st.step_event_index.x).time ≠ DBL_MAX
          → (st.step_events.get st.step_event_index.x).flags ≠ 0
          → (generate_next_step_event cfg gen ft st).1.flags ≠ 0)
        ∧ (((st.step_events.get st.step_event_index.x).time = 0
            ∨ (st.step_events.get st.step_event_index.x).time = DBL_MAX)
          → (generate_next_step_event cfg gen ft st).1.flags = 0)) := by
  refine ⟨?_, ?_, ?_, ?_, ?_⟩
  · intro buffered new_ev ev h
    unfold coalesce_buffered_step at h
    split at h
    · exact absurd h (by simp)
    · split at h
      · exact absurd h (by simp)
      · split at h
        · exact absurd h (by simp)
        · rename_i hn hb hc
          simp only [Option.some.injEq] at h
          rw [← h]
          exact hb
  · intro cfg st s ev hev
    unfold flush_buffered_step at hev
    split at hev
    · split at hev
      · rcases List.mem_append.mp hev with hl | hr
        · exact Or.inl hl
        · rename_i hflags _
          rw [List.mem_singleton.mp hr]
          exact Or.inr hflags
      · exact Or.inl hev
    · exact Or.inl hev
  · intro cfg st s extra ev hev
    unfold append_move_discarding_step_event at hev
    split at hev
    · rcases List.mem_append.mp hev with hl | hr
      · exact Or.inl hl
      · rw [List.mem_singleton.mp hr]
        right
        show (st.flags ||| STEP_EVENT_FLAG_BEGINNING_OF_MOVE_SEGMENT ||| extra)
            &&& STEP_EVENT_FLAG_BEGINNING_OF_MOVE_SEGMENT ≠ 0
        show (st.flags ||| 2 ^ 12 ||| extra) &&& 2 ^ 12 ≠ 0
        exact or_two_pow_or_and_ne_zero _ _ _
    · exact Or.inl hev
  · intro cfg g st ft rem
    induction rem generalizing g st with
    | nil =>
      unfold classic_step_generator_next_step_event
      cases hp : classic_step_probe cfg g st ft with
      | none => left; rfl
      | some r => exact classic_step_probe_step_bit cfg g st ft r hp
    | cons m rest ih =>
      unfold classic_step_generator_next_step_event
      cases hp : classic_step_probe cfg g st ft with
      | some r => exact classic_step_probe_step_bit cfg g st ft r hp
      | none => exact ih _ _
  · intro cfg gen ft st
    constructor
    · intro h1 h2 h3
      simp only [generate_next_step_event]
      rw [if_pos ⟨h1, h2⟩]
      split
      · exact lor_ne_zero_left _ _ h3
      · exact h3
    · intro hdisj
      have hneg : ¬ ((st.step_events.get st.step_event_index.x).time ≠ 0
          ∧ (st.step_events.get st.step_event_index.x).time ≠ DBL_MAX) := by
        rcases hdisj with h | h
        · intro hcon; exact hcon.1 h
        · intro hcon; exact hcon.2 h
      simp only [generate_next_step_event]
      rw [if_neg hneg]

theorem C10_flags_nonzero_invariant_witness :
    ({ time_ticks := 7, flags := 1 } : step_event_t).flags ≠ 0 :=
  C10_flags_nonzero_invariant.1 { time_ticks := 7, flags := 1 }
    { time_ticks := 5, flags := 2 } { time_ticks := 7, flags := 1 } (by decide)

/-! ## Claim C5 -/

theorem getD_set_self (l : List ℕ) (i a : ℕ) (h : i < l.length) :
    (l.set i a).getD i 0 = a := by
  simp [List.getD, List.getElem?_set_self, h]

theorem getD_set_ne (l : List ℕ) (i j a : ℕ) (h : i ≠ j) :
    (l.set i a).getD j 0 = l.getD j 0 := by
  simp [List.getD, List.getElem?_set_ne h]

theorem xyze_get_set_self {α : Type} (v : xyze α) (a : Fin 4) (x : α) :
    (v.set a x).get a = x := by
  fin_cases a <;> rfl

theorem xyze_get_set_ne {α : Type} (v : xyze α) (a b : Fin 4) (x : α) (h : a ≠ b) :
    (v.set a x).get b = v.get b := by
  fin_cases a <;> fin_cases b <;> simp_all [xyze.set, xyze.get]

/-- Moving one generator's pointer changes the per-segment pointer counts by
exactly the old and new membership. -/
theorem countP_toList_set (v : xyze (Option ℕ)) (a : Fin 4) (x : Option ℕ) (j : ℕ) :
    ((v.set a x).toList.countP (fun o => decide (o = some j)))
        + (if v.get a = some j then 1 else 0)
      = (v.toList.countP (fun o => decide (o = some j)))
        + (if x = some j then 1 else 0) := by
  fin_cases a <;>
    simp [xyze.set, xyze.get, xyze.toList, List.countP_cons] <;>
    split_ifs <;> omega

theorem gen_advance_none (a : Fin 4) (s : refcount_state)
    (h : s.current_move.get a = none) : gen_advance a s = s := by
  unfold gen_advance
  rw [h]

theorem gen_advance_oob (a : Fin 4) (s : refcount_state) (i : ℕ)
    (h : s.current_move.get a = some i) (hg : ¬ i + 1 < s.reference_cnt.length) :
    gen_advance a s = s := by
  unfold gen_advance
  rw [h]
  exact if_neg hg

theorem gen_advance_some (a : Fin 4) (s : refcount_state) (i : ℕ)
    (h : s.current_move.get a = some i) (hg : i + 1 < s.reference_cnt.length) :
    gen_advance a s =
      { reference_cnt := (s.reference_cnt.set i (s.reference_cnt.getD i 0 - 1)).set (i + 1)
          ((s.reference_cnt.set i (s.reference_cnt.getD i 0 - 1)).getD (i + 1) 0 + 1)
        current_move := s.current_move.set a (some (i + 1)) } := by
  unfold gen_advance
  rw [h]
  exact if_pos hg

/-- The in-range-pointers side condition. -/
def refcount_inrange (s : refcount_state) : Prop :=
  ∀ a : Fin 4, ∀ i, s.current_move.get a = some i → i < s.reference_cnt.length

theorem refcount_attach_preserves (s : refcount_state) (a : Fin 4) (i : ℕ)
    (hs : refcount_sound s) (hr : refcount_inrange s)
    (hnone : s.current_move.get a = none) (hi : i < s.reference_cnt.length) :
    refcount_sound (gen_attach a i s) ∧ refcount_inrange (gen_attach a i s) := by
  simp only [refcount_sound, pointing_count] at hs
  constructor
  · intro j hj
    simp only [gen_attach, List.length_set] at hj
    simp only [gen_attach, pointing_count]
    have hc := countP_toList_set s.current_move a (some i) j
    rw [hnone] at hc
    have h1 : ¬ ((none : Option ℕ) = some j) := by simp
    rw [if_neg h1] at hc
    by_cases hij : i = j
    · subst hij
      rw [if_pos rfl] at hc
      rw [getD_set_self _ _ _ hi, hs i hi]
      omega
    · have h2 : ¬ ((some i : Option ℕ) = some j) := by simp [hij]
      rw [if_neg h2] at hc
      rw [getD_set_ne _ _ _ _ hij, hs j hj]
      omega
  · intro b k hbk
    simp only [gen_attach, List.length_set]
    simp only [gen_attach] at hbk
    by_cases hab : a = b
    · subst hab
      rw [xyze_get_set_self] at hbk
      cases hbk
      exact hi
    · rw [xyze_get_set_ne _ _ _ _ hab] at hbk
      exact hr b k hbk

theorem refcount_advance_preserves (s : refcount_state) (a : Fin 4)
    (hs : refcount_sound s) (hr : refcount_inrange s) :
    refcount_sound (gen_advance a s) ∧ refcount_inrange (gen_advance a s) := by
  simp only [refcount_sound, pointing_count] at hs
  cases hget : s.current_move.get a with
  | none =>
    rw [gen_advance_none a s hget]
    exact ⟨hs, hr⟩
  | some i =>
    by_cases hg : i + 1 < s.reference_cnt.length
    · rw [gen_advance_some a s i hget hg]
      have hi : i < s.reference_cnt.length := by omega
      constructor
      · intro j hj
        simp only [List.length_set] at hj
        simp only [pointing_count]
        have hc := countP_toList_set s.current_move a (some (i + 1)) j
        rw [hget] at hc
        by_cases hij : i = j
        · subst hij
          rw [if_pos rfl] at hc
          have h2 : ¬ ((some (i + 1) : Option ℕ) = some i) := by simp
          rw [if_neg h2] at hc
          rw [getD_set_ne _ _ _ _ (by omega : i + 1 ≠ i), getD_set_self _ _ _ hi, hs i hj]
          omega
        · by_cases hij1 : i + 1 = j
          · subst hij1
            have h1 : ¬ ((some i : Option ℕ) = some (i + 1)) := by simp
            rw [if_neg h1, if_pos rfl] at hc
            have hset : (s.reference_cnt.set i (s.reference_cnt.getD i 0 - 1)).getD (i + 1) 0
                = s.reference_cnt.getD (i + 1) 0 :=
              getD_set_ne _ _ _ _ (by omega)
            rw [getD_set_self _ _ _ (by simpa using hg), hset, hs (i + 1) hj]
            omega
          · have h1 : ¬ ((some i : Option ℕ) = some j) := by simp [hij]
            have h2 : ¬ ((some (i + 1) : Option ℕ) = some j) := by simp [hij1]
            rw [if_neg h1, if_neg h2] at hc
            rw [getD_set_ne _ _ _ _ hij1, getD_set_ne _ _ _ _ hij, hs j hj]
            omega
      · intro b k hbk
        simp only [List.length_set]
        simp only [] at hbk
        by_cases hab : a = b
        · subst hab
          rw [xyze_get_set_self] at hbk
          cases hbk
          exact hg
        · rw [xyze_get_set_ne _ _ _ _ hab] at hbk
          exact hr b k hbk
    · rw [gen_advance_oob a s i hget hg]
      exact ⟨hs, hr⟩

theorem refcount_push_preserves (s : refcount_state)
    (hs : refcount_sound s) (hr : refcount_inrange s) :
    refcount_sound (queue_push s) ∧ refcount_inrange (queue_push s) := by
  constructor
  · intro j hj
    simp only [queue_push, List.length_append, List.length_cons, List.length_nil] at hj
    simp only [queue_push, pointing_count]
    rcases Nat.lt_or_ge j s.reference_cnt.length with hlt | hge
    · rw [List.getD_append _ _ _ _ hlt]
      exact hs j hlt
    · have hj' : j = s.reference_cnt.length := by omega
      subst hj'
      have hD : (s.reference_cnt ++ [0]).getD s.reference_cnt.length 0 = 0 := by
        simp [List.getD]
      rw [hD]
      symm
      rw [List.countP_eq_zero]
      intro o ho
      have hex : ∃ b : Fin 4, s.current_move.get b = o := by
        revert ho
        simp only [xyze.toList, List.mem_cons, List.not_mem_nil, or_false]
        rintro (rfl | rfl | rfl | rfl)
        exacts [⟨0, rfl⟩, ⟨1, rfl⟩, ⟨2, rfl⟩, ⟨3, rfl⟩]
      obtain ⟨b, hb⟩ := hex
      simp only [decide_eq_true_eq]
      intro hsome
      rw [hsome] at hb
      exact absurd (hr b _ hb) (by omega)
  · intro b k hbk
    simp only [queue_push, List.length_append, List.length_cons, List.length_nil]
    have := hr b k hbk
    omega

/-- The well-formedness invariant maintained by the reference-count
operations: soundness plus in-range generator pointers. -/
theorem refcount_wf_of_reachable (s : refcount_state) (h : refcount_reachable s) :
    refcount_sound s ∧ refcount_inrange s := by
  induction h with
  | init n =>
    constructor
    · intro j hj
      simp only [refcount_init, List.length_replicate] at hj
      simp [refcount_init, pointing_count, List.getD, List.getElem?_replicate, hj,
        xyze.toList, List.countP_cons]
    · intro a i hget
      simp [refcount_init, xyze.get] at hget
      rcases a with ⟨av, ha⟩
      interval_cases av <;> simp_all [xyze.get]
  | @attach t a i hreach hnone hi ih =>
    exact refcount_attach_preserves t a i ih.1 ih.2 hnone hi
  | @advance t a hreach ih =>
    exact refcount_advance_preserves t a ih.1 ih.2
  | @push t hreach ih =>
    exact refcount_push_preserves t ih.1 ih.2

/-- Claim C5: reference-count soundness — at every observation point reachable
by the engine's operations (generator attach as in
`classic_step_generator_init`, generator advance as in
`classic_step_generator_next_step_event`, queue growth), each move segment's
`reference_cnt` equals the number of generators whose `current_move` points at
it; the attach increments the attached segment's count by exactly one, and the
advance decrements the old segment's count and increments the next segment's
count by exactly one each. -/
theorem C5_reference_count_soundness :
    (∀ s : refcount_state, refcount_reachable s → refcount_sound s)
    ∧ (∀ (s : refcount_state) (a : Fin 4) (i : ℕ),
        i < s.reference_cnt.length →
        (gen_attach a i s).reference_cnt.getD i 0 = s.reference_cnt.getD i 0 + 1)
    ∧ (∀ (s : refcount_state) (a : Fin 4) (i : ℕ),
        s.current_move.get a = some i → i + 1 < s.reference_cnt.length →
        (gen_advance a s).reference_cnt.getD i 0 = s.reference_cnt.getD i 0 - 1
        ∧ (gen_advance a s).reference_cnt.getD (i + 1) 0
            = s.reference_cnt.getD (i + 1) 0 + 1
        ∧ (gen_advance a s).current_move.get a = some (i + 1)) := by
  refine ⟨?_, ?_, ?_⟩
  · intro s h
    exact (refcount_wf_of_reachable s h).1
  · intro s a i hi
    simp only [gen_attach]
    exact getD_set_self _ _ _ hi
  · intro s a i hget hg
    rw [gen_advance_some a s i hget hg]
    refine ⟨?_, ?_, xyze_get_set_self _ _ _⟩
    · show ((s.reference_cnt.set i (s.reference_cnt.getD i 0 - 1)).set (i + 1) _).getD i 0 = _
      rw [getD_set_ne _ _ _ _ (by omega : i + 1 ≠ i),
        getD_set_self _ _ _ (by omega : i < s.reference_cnt.length)]
    · show ((s.reference_cnt.set i (s.reference_cnt.getD i 0 - 1)).set (i + 1) _).getD (i + 1) 0 = _
      rw [getD_set_self _ _ _ (by simpa using hg),
        getD_set_ne _ _ _ _ (by omega : i ≠ i + 1)]

theorem C5_reference_count_soundness_witness :
    refcount_sound (gen_advance 0 (gen_attach 0 0 (refcount_init 3))) :=
  C5_reference_count_soundness.1 _
    (refcount_reachable.advance 0
      (refcount_reachable.attach 0 0 (refcount_reachable.init 3) rfl (by simp [refcount_init])))

/-! ## Claim C9 -/

/-- The no-cruise accel distance as the claim words it: the recomputation
formula plainly clamped to the interval `[0, S]`. -/
def claim_no_cruise_accel_dist (start_v end_v accel dist : ℚ) : ℚ :=
  min (max ((2 * dist * accel + SQR end_v - SQR start_v) / (4 * accel)) 0) dist

/-- A degenerate block (all speeds equal, length 1/2000000 mm) whose no-cruise
recomputation distance falls inside `(0, ε]`. -/
def blockC9 : block_t :=
  { steps := { x := 1, y := 0, z := 0, e := 0 }
    direction_bits := 0
    millimeters := 1/2000000
    acceleration := 1
    initial_speed := 1
    final_speed := 1
    nominal_speed := 1 }

/-- Claim C9 counterexample: with all speeds equal and S = 1/2000000 mm the
recomputation formula yields S/2 = 1/4000000, inside `(0, ε]`; the code snaps
it to 0, while the claim's "clamped to [0, S]" keeps 1/4000000. -/
theorem C9_counterexample_snap_is_not_plain_clamp :
    (block_move_dists cfg0 blockC9).1 = 0
    ∧ claim_no_cruise_accel_dist blockC9.initial_speed blockC9.final_speed
        blockC9.acceleration blockC9.millimeters = 1/4000000
    ∧ (block_move_dists cfg0 blockC9).1
        ≠ claim_no_cruise_accel_dist blockC9.initial_speed blockC9.final_speed
            blockC9.acceleration blockC9.millimeters := by
  have h1 : (block_move_dists cfg0 blockC9).1 = 0 := by
    simp only [block_move_dists, calc_distance_required_to_reach_cruise_velocity_clamped,
      calc_distance_required_to_reach_cruise_velocity,
      calc_distance_in_which_we_start_decelerating_clamped,
      calc_distance_in_which_we_start_decelerating, SQR, blockC9, cfg0]
    norm_num
  have h2 : claim_no_cruise_accel_dist blockC9.initial_speed blockC9.final_speed
      blockC9.acceleration blockC9.millimeters = 1/4000000 := by
    have hval : (2 * blockC9.millimeters * blockC9.acceleration + SQR blockC9.final_speed
        - SQR blockC9.initial_speed) / (4 * blockC9.acceleration) = 1/4000000 := by
      norm_num [blockC9, SQR]
    unfold claim_no_cruise_accel_dist
    rw [hval, max_eq_left (by norm_num), min_eq_left (by norm_num [blockC9])]
  refine ⟨h1, h2, ?_⟩
  rw [h1, h2]
  norm_num

/-- Claim C9 (amended): whenever the initially computed cruise distance
`millimeters − accel_dist − decel_dist` is below ε, the distances are
recomputed as `accel_dist = (2·S·a + end_v² − start_v²)/(4·a)` snapped to the
interval ends (set to 0 when ≤ ε, and to S when > S − ε; hence lying in
[0, S]), `decel_dist = S − accel_dist`, `cruise_dist = 0`, and the new cruise
velocity is `√(2·a·accel_dist + start_v²)`. -/
theorem C9_no_cruise_recompute (cfg : Config) (b : block_t)
    (heps : 0 < cfg.EPSILON_DISTANCE) (hmm : 0 ≤ b.millimeters)
    (hlow : b.millimeters
        - calc_distance_required_to_reach_cruise_velocity_clamped cfg b.initial_speed
            b.nominal_speed b.acceleration
        - calc_distance_required_to_reach_cruise_velocity_clamped cfg b.final_speed
            b.nominal_speed b.acceleration
      < cfg.EPSILON_DISTANCE) :
    ∃ accel_dist : ℚ,
      (accel_dist =
        (let raw := (2 * b.millimeters * b.acceleration + SQR b.final_speed
            - SQR b.initial_speed) / (4 * b.acceleration)
         if raw ≤ cfg.EPSILON_DISTANCE then 0
         else if raw > b.millimeters - cfg.EPSILON_DISTANCE then b.millimeters
         else raw))
      ∧ 0 ≤ accel_dist ∧ accel_dist ≤ b.millimeters
      ∧ block_move_dists cfg b
          = (accel_dist, b.millimeters - accel_dist, 0,
             cfg.sqrtQ (2 * accel_dist * b.acceleration + SQR b.initial_speed)) := by
  refine ⟨calc_distance_in_which_we_start_decelerating_clamped cfg b.initial_speed
    b.final_speed b.acceleration b.millimeters, ?_, ?_, ?_, ?_⟩
  · simp only [calc_distance_in_which_we_start_decelerating_clamped,
      calc_distance_in_which_we_start_decelerating]
  · unfold calc_distance_in_which_we_start_decelerating_clamped
    dsimp only
    split_ifs with h1 h2
    · exact le_refl 0
    · exact hmm
    · have := lt_of_not_le h1
      linarith
  · unfold calc_distance_in_which_we_start_decelerating_clamped
    dsimp only
    split_ifs with h1 h2
    · exact hmm
    · exact le_refl b.millimeters
    · have h2' := not_lt.mp h2
      linarith
  · have hub : calc_distance_in_which_we_start_decelerating_clamped cfg b.initial_speed
        b.final_speed b.acceleration b.millimeters ≤ b.millimeters := by
      unfold calc_distance_in_which_we_start_decelerating_clamped
      dsimp only
      split_ifs with h1 h2
      · exact hmm
      · exact le_refl b.millimeters
      · have h2' := not_lt.mp h2
        linarith
    simp only [block_move_dists]
    rw [if_pos hlow]
    rw [Prod.mk.injEq, Prod.mk.injEq, Prod.mk.injEq]
    refine ⟨rfl, ?_, rfl, rfl⟩
    exact max_eq_left (by linarith)

theorem C9_no_cruise_recompute_witness :
    (block_move_dists cfg0 blockC9).2.2.1 = 0 := by
  obtain ⟨ad, -, -, -, h4⟩ := C9_no_cruise_recompute cfg0 blockC9
    (by norm_num [cfg0])
    (by norm_num [blockC9])
    (by
      simp only [calc_distance_required_to_reach_cruise_velocity_clamped,
        calc_distance_required_to_reach_cruise_velocity, SQR, blockC9, cfg0]
      norm_num)
  rw [h4]

/-! ## Claim C3: flag-word helpers -/

theorem and_two_pow_ne_zero_iff (x k : ℕ) : x &&& 2 ^ k ≠ 0 ↔ x.testBit k := by
  rw [Nat.and_two_pow]
  rcases h : x.testBit k with _ | _ <;>
    simp [h, Nat.pos_iff_ne_zero.mp (Nat.two_pow_pos k)]

theorem flag_word_and_two_pow (low dm am k : ℕ) (hd : dm < 16) (ha : am < 16)
    (hk : k < 4 ∨ k = 12) :
    (((low ||| dm <<< 4) ||| am <<< 8) &&& 2 ^ k ≠ 0) ↔ low.testBit k := by
  rw [and_two_pow_ne_zero_iff]
  have hdm8 : dm.testBit 8 = false := Nat.testBit_lt_two_pow (by omega)
  have ham4 : am.testBit 4 = false := Nat.testBit_lt_two_pow (by omega)
  rcases hk with hk | rfl
  · interval_cases k <;> simp [Nat.testBit_or, Nat.testBit_shiftLeft]
  · simp [Nat.testBit_or, Nat.testBit_shiftLeft, hdm8, ham4]

theorem active_flags_shape (b : block_t) :
    ∃ am, am < 16 ∧ get_active_axis_flags_from_block b = am <<< 8 := by
  refine ⟨(if b.steps.x > 0 then 1 else 0) ||| (if b.steps.y > 0 then 2 else 0)
      ||| (if b.steps.z > 0 then 4 else 0) ||| (if b.steps.e > 0 then 8 else 0), ?_, ?_⟩
  · split_ifs <;> decide
  · unfold get_active_axis_flags_from_block MOVE_FLAG_X_ACTIVE MOVE_FLAG_Y_ACTIVE
      MOVE_FLAG_Z_ACTIVE MOVE_FLAG_E_ACTIVE
    split_ifs <;> decide

/-- The phase/first/last bits of a segment flag word are exactly those of its
low (non-dir, non-active) component. -/
theorem flagSet_iff_low (b : block_t) (low k : ℕ) (hk : k < 4 ∨ k = 12) :
    moveFlagSet ((low ||| block_dir_flags b) ||| get_active_axis_flags_from_block b) (2 ^ k)
      ↔ low.testBit k := by
  obtain ⟨am, ham, hact⟩ := active_flags_shape b
  rw [hact]
  unfold moveFlagSet block_dir_flags MOVE_FLAG_DIR_SHIFT
  have hdm : b.direction_bits &&& 0x0F < 16 := by
    have := Nat.and_le_right (n := b.direction_bits) (m := 0x0F)
    omega
  exact flag_word_and_two_pow low _ am k hdm ham hk

theorem accel_segment_flag_tests (cfg : Config) (b : block_t)
    (dd dc cv pt : ℚ) (pos : xyze ℚ) :
    moveFlagSet (accel_segment cfg b dd dc cv pt pos).flags MOVE_FLAG_ACCELERATION_PHASE
    ∧ ¬ moveFlagSet (accel_segment cfg b dd dc cv pt pos).flags MOVE_FLAG_CRUISE_PHASE
    ∧ ¬ moveFlagSet (accel_segment cfg b dd dc cv pt pos).flags MOVE_FLAG_DECELERATION_PHASE
    ∧ moveFlagSet (accel_segment cfg b dd dc cv pt pos).flags MOVE_FLAG_FIRST_MOVE_SEGMENT_OF_BLOCK
    ∧ (moveFlagSet (accel_segment cfg b dd dc cv pt pos).flags MOVE_FLAG_LAST_MOVE_SEGMENT_OF_BLOCK
        ↔ (dc = 0 ∧ dd = 0)) := by
  by_cases hld : dc ≠ 0 ∨ dd ≠ 0
  · have hflags : (accel_segment cfg b dd dc cv pt pos).flags
        = (((2 ^ 0 ||| 2 ^ 3 ||| 0) ||| block_dir_flags b)
            ||| get_active_axis_flags_from_block b) := by
      simp only [accel_segment, MOVE_FLAG_ACCELERATION_PHASE,
        MOVE_FLAG_FIRST_MOVE_SEGMENT_OF_BLOCK, if_pos hld]
    simp only [MOVE_FLAG_ACCELERATION_PHASE, MOVE_FLAG_CRUISE_PHASE,
      MOVE_FLAG_DECELERATION_PHASE, MOVE_FLAG_FIRST_MOVE_SEGMENT_OF_BLOCK,
      MOVE_FLAG_LAST_MOVE_SEGMENT_OF_BLOCK, hflags]
    rw [flagSet_iff_low b _ 0 (by omega), flagSet_iff_low b _ 1 (by omega),
      flagSet_iff_low b _ 2 (by omega), flagSet_iff_low b _ 3 (by omega),
      flagSet_iff_low b _ 12 (by omega)]
    refine ⟨by decide, by decide, by decide, by decide, ?_⟩
    rw [iff_iff_implies_and_implies]
    constructor
    · intro hb
      exact absurd hb (by decide)
    · intro hcd
      rcases hld with hld | hld
      · exact absurd hcd.1 hld
      · exact absurd hcd.2 hld
  · push_neg at hld
    have hflags : (accel_segment cfg b dd dc cv pt pos).flags
        = (((2 ^ 0 ||| 2 ^ 3 ||| 2 ^ 12) ||| block_dir_flags b)
            ||| get_active_axis_flags_from_block b) := by
      simp only [accel_segment, MOVE_FLAG_ACCELERATION_PHASE,
        MOVE_FLAG_FIRST_MOVE_SEGMENT_OF_BLOCK, MOVE_FLAG_LAST_MOVE_SEGMENT_OF_BLOCK,
        if_neg (by push_neg; exact hld : ¬ (dc ≠ 0 ∨ dd ≠ 0))]
    simp only [MOVE_FLAG_ACCELERATION_PHASE, MOVE_FLAG_CRUISE_PHASE,
      MOVE_FLAG_DECELERATION_PHASE, MOVE_FLAG_FIRST_MOVE_SEGMENT_OF_BLOCK,
      MOVE_FLAG_LAST_MOVE_SEGMENT_OF_BLOCK, hflags]
    rw [flagSet_iff_low b _ 0 (by omega), flagSet_iff_low b _ 1 (by omega),
      flagSet_iff_low b _ 2 (by omega), flagSet_iff_low b _ 3 (by omega),
      flagSet_iff_low b _ 12 (by omega)]
    refine ⟨by decide, by decide, by decide, by decide, ?_⟩
    exact iff_of_true (by decide) hld

theorem cruise_segment_flag_tests (cfg : Config) (b : block_t)
    (da dd dc cv pt : ℚ) (pos : xyze ℚ) :
    moveFlagSet (cruise_segment cfg b da dd dc cv pt pos).flags MOVE_FLAG_CRUISE_PHASE
    ∧ ¬ moveFlagSet (cruise_segment cfg b da dd dc cv pt pos).flags MOVE_FLAG_ACCELERATION_PHASE
    ∧ ¬ moveFlagSet (cruise_segment cfg b da dd dc cv pt pos).flags MOVE_FLAG_DECELERATION_PHASE
    ∧ (moveFlagSet (cruise_segment cfg b da dd dc cv pt pos).flags
        MOVE_FLAG_FIRST_MOVE_SEGMENT_OF_BLOCK ↔ da = 0)
    ∧ (moveFlagSet (cruise_segment cfg b da dd dc cv pt pos).flags
        MOVE_FLAG_LAST_MOVE_SEGMENT_OF_BLOCK ↔ dd = 0) := by
  by_cases hda : da ≠ 0 <;> by_cases hdd : dd ≠ 0
  all_goals (
    first
    | (have hflags : (cruise_segment cfg b da dd dc cv pt pos).flags
          = (((2 ^ 1 ||| 0 ||| 0) ||| block_dir_flags b)
              ||| get_active_axis_flags_from_block b) := by
        simp only [cruise_segment, MOVE_FLAG_CRUISE_PHASE, if_pos hda, if_pos hdd])
    | (have hflags : (cruise_segment cfg b da dd dc cv pt pos).flags
          = (((2 ^ 1 ||| 0 ||| 2 ^ 12) ||| block_dir_flags b)
              ||| get_active_axis_flags_from_block b) := by
        simp only [cruise_segment, MOVE_FLAG_CRUISE_PHASE,
          MOVE_FLAG_LAST_MOVE_SEGMENT_OF_BLOCK, if_pos hda, if_neg hdd])
    | (have hflags : (cruise_segment cfg b da dd dc cv pt pos).flags
          = (((2 ^ 1 ||| 2 ^ 3 ||| 0) ||| block_dir_flags b)
              ||| get_active_axis_flags_from_block b) := by
        simp only [cruise_segment, MOVE_FLAG_CRUISE_PHASE,
          MOVE_FLAG_FIRST_MOVE_SEGMENT_OF_BLOCK, if_neg hda, if_pos hdd])
    | (have hflags : (cruise_segment cfg b da dd dc cv pt pos).flags
          = (((2 ^ 1 ||| 2 ^ 3 ||| 2 ^ 12) ||| block_dir_flags b)
              ||| get_active_axis_flags_from_block b) := by
        simp only [cruise_segment, MOVE_FLAG_CRUISE_PHASE,
          MOVE_FLAG_FIRST_MOVE_SEGMENT_OF_BLOCK, MOVE_FLAG_LAST_MOVE_SEGMENT_OF_BLOCK,
          if_neg hda, if_neg hdd]))
  all_goals (
    simp only [MOVE_FLAG_ACCELERATION_PHASE, MOVE_FLAG_CRUISE_PHASE,
      MOVE_FLAG_DECELERATION_PHASE, MOVE_FLAG_FIRST_MOVE_SEGMENT_OF_BLOCK,
      MOVE_FLAG_LAST_MOVE_SEGMENT_OF_BLOCK, hflags]
    rw [flagSet_iff_low b _ 1 (by omega), flagSet_iff_low b _ 0 (by omega),
      flagSet_iff_low b _ 2 (by omega), flagSet_iff_low b _ 3 (by omega),
      flagSet_iff_low b _ 12 (by omega)])
  · exact ⟨by decide, by decide, by decide,
      iff_of_false (by decide) hda, iff_of_false (by decide) hdd⟩
  · exact ⟨by decide, by decide, by decide,
      iff_of_false (by decide) hda, iff_of_true (by decide) (not_not.mp hdd)⟩
  · exact ⟨by decide, by decide, by decide,
      iff_of_true (by decide) (not_not.mp hda), iff_of_false (by decide) hdd⟩
  · exact ⟨by decide, by decide, by decide,
      iff_of_true (by decide) (not_not.mp hda), iff_of_true (by decide) (not_not.mp hdd)⟩

theorem decel_segment_flag_tests (cfg : Config) (b : block_t)
    (da dc cv pt : ℚ) (pos : xyze ℚ) :
    moveFlagSet (decel_segment cfg b da dc cv pt pos).flags MOVE_FLAG_DECELERATION_PHASE
    ∧ ¬ moveFlagSet (decel_segment cfg b da dc cv pt pos).flags MOVE_FLAG_ACCELERATION_PHASE
    ∧ ¬ moveFlagSet (decel_segment cfg b da dc cv pt pos).flags MOVE_FLAG_CRUISE_PHASE
    ∧ (moveFlagSet (decel_segment cfg b da dc cv pt pos).flags
        MOVE_FLAG_FIRST_MOVE_SEGMENT_OF_BLOCK ↔ (da = 0 ∧ dc = 0))
    ∧ moveFlagSet (decel_segment cfg b da dc cv pt pos).flags
        MOVE_FLAG_LAST_MOVE_SEGMENT_OF_BLOCK := by
  by_cases hld : da ≠ 0 ∨ dc ≠ 0
  · have hflags : (decel_segment cfg b da dc cv pt pos).flags
        = (((2 ^ 2 ||| 2 ^ 12 ||| 0) ||| block_dir_flags b)
            ||| get_active_axis_flags_from_block b) := by
      simp only [decel_segment, MOVE_FLAG_DECELERATION_PHASE,
        MOVE_FLAG_LAST_MOVE_SEGMENT_OF_BLOCK, if_pos hld]
    simp only [MOVE_FLAG_ACCELERATION_PHASE, MOVE_FLAG_CRUISE_PHASE,
      MOVE_FLAG_DECELERATION_PHASE, MOVE_FLAG_FIRST_MOVE_SEGMENT_OF_BLOCK,
      MOVE_FLAG_LAST_MOVE_SEGMENT_OF_BLOCK, hflags]
    rw [flagSet_iff_low b _ 2 (by omega), flagSet_iff_low b _ 0 (by omega),
      flagSet_iff_low b _ 1 (by omega), flagSet_iff_low b _ 3 (by omega),
      flagSet_iff_low b _ 12 (by omega)]
    refine ⟨by decide, by decide, by decide, ?_, by decide⟩
    refine iff_of_false (by decide) ?_
    intro hcd
    rcases hld with hld | hld
    · exact absurd hcd.1 hld
    · exact absurd hcd.2 hld
  · push_neg at hld
    have hflags : (decel_segment cfg b da dc cv pt pos).flags
        = (((2 ^ 2 ||| 2 ^ 12 ||| 2 ^ 3) ||| block_dir_flags b)
            ||| get_active_axis_flags_from_block b) := by
      simp only [decel_segment, MOVE_FLAG_DECELERATION_PHASE,
        MOVE_FLAG_FIRST_MOVE_SEGMENT_OF_BLOCK, MOVE_FLAG_LAST_MOVE_SEGMENT_OF_BLOCK,
        if_neg (by push_neg; exact hld : ¬ (da ≠ 0 ∨ dc ≠ 0))]
    simp only [MOVE_FLAG_ACCELERATION_PHASE, MOVE_FLAG_CRUISE_PHASE,
      MOVE_FLAG_DECELERATION_PHASE, MOVE_FLAG_FIRST_MOVE_SEGMENT_OF_BLOCK,
      MOVE_FLAG_LAST_MOVE_SEGMENT_OF_BLOCK, hflags]
    rw [flagSet_iff_low b _ 2 (by omega), flagSet_iff_low b _ 0 (by omega),
      flagSet_iff_low b _ 1 (by omega), flagSet_iff_low b _ 3 (by omega),
      flagSet_iff_low b _ 12 (by omega)]
    exact ⟨by decide, by decide, by decide, iff_of_true (by decide) hld, by decide⟩

/-- The phase of a segment as a rank (accel 0, cruise 1, decel 2), read from
its flags. -/
def phase_rank (m : move_t) : ℕ :=
  if moveFlagSet m.flags MOVE_FLAG_ACCELERATION_PHASE then 0
  else if moveFlagSet m.flags MOVE_FLAG_CRUISE_PHASE then 1
  else 2

theorem accel_segment_rank (cfg : Config) (b : block_t) (dd dc cv pt : ℚ) (pos : xyze ℚ) :
    phase_rank (accel_segment cfg b dd dc cv pt pos) = 0 := by
  unfold phase_rank
  rw [if_pos (accel_segment_flag_tests cfg b dd dc cv pt pos).1]

theorem cruise_segment_rank (cfg : Config) (b : block_t) (da dd dc cv pt : ℚ) (pos : xyze ℚ) :
    phase_rank (cruise_segment cfg b da dd dc cv pt pos) = 1 := by
  unfold phase_rank
  rw [if_neg (cruise_segment_flag_tests cfg b da dd dc cv pt pos).2.1,
    if_pos (cruise_segment_flag_tests cfg b da dd dc cv pt pos).1]

theorem decel_segment_rank (cfg : Config) (b : block_t) (da dc cv pt : ℚ) (pos : xyze ℚ) :
    phase_rank (decel_segment cfg b da dc cv pt pos) = 2 := by
  unfold phase_rank
  rw [if_neg (decel_segment_flag_tests cfg b da dc cv pt pos).2.1,
    if_neg (decel_segment_flag_tests cfg b da dc cv pt pos).2.2.1]

theorem push_accel_phase_queue (cfg : Config) (b : block_t)
    (accel_dist decel_dist cruise_dist cruise_v : ℚ) (c : seg_cursor) (h : accel_dist ≠ 0)
    (hroom : c.st.move_segment_queue.length < cfg.MOVE_SEGMENT_QUEUE_SIZE) :
    (push_accel_phase cfg b accel_dist decel_dist cruise_dist cruise_v c).st.move_segment_queue
      = c.st.move_segment_queue
        ++ [accel_segment cfg b decel_dist cruise_dist cruise_v c.print_time c.start_pos] := by
  rw [push_accel_phase_spec cfg b accel_dist decel_dist cruise_dist cruise_v c h hroom]

theorem push_accel_phase_pt (cfg : Config) (b : block_t)
    (accel_dist decel_dist cruise_dist cruise_v : ℚ) (c : seg_cursor) (h : accel_dist ≠ 0)
    (hroom : c.st.move_segment_queue.length < cfg.MOVE_SEGMENT_QUEUE_SIZE) :
    (push_accel_phase cfg b accel_dist decel_dist cruise_dist cruise_v c).print_time
      = c.print_time
        + (accel_segment cfg b decel_dist cruise_dist cruise_v c.print_time c.start_pos).move_t := by
  rw [push_accel_phase_spec cfg b accel_dist decel_dist cruise_dist cruise_v c h hroom]

theorem push_cruise_phase_queue (cfg : Config) (b : block_t)
    (accel_dist decel_dist cruise_dist cruise_v : ℚ) (c : seg_cursor) (h : cruise_dist ≠ 0)
    (hroom : c.st.move_segment_queue.length < cfg.MOVE_SEGMENT_QUEUE_SIZE) :
    (push_cruise_phase cfg b accel_dist decel_dist cruise_dist cruise_v c).st.move_segment_queue
      = c.st.move_segment_queue
        ++ [cruise_segment cfg b accel_dist decel_dist cruise_dist cruise_v
              c.print_time c.start_pos] := by
  rw [push_cruise_phase_spec cfg b accel_dist decel_dist cruise_dist cruise_v c h hroom]

theorem push_cruise_phase_pt (cfg : Config) (b : block_t)
    (accel_dist decel_dist cruise_dist cruise_v : ℚ) (c : seg_cursor) (h : cruise_dist ≠ 0)
    (hroom : c.st.move_segment_queue.length < cfg.MOVE_SEGMENT_QUEUE_SIZE) :
    (push_cruise_phase cfg b accel_dist decel_dist cruise_dist cruise_v c).print_time
      = c.print_time
        + (cruise_segment cfg b accel_dist decel_dist cruise_dist cruise_v
            c.print_time c.start_pos).move_t := by
  rw [push_cruise_phase_spec cfg b accel_dist decel_dist cruise_dist cruise_v c h hroom]

theorem push_decel_phase_queue (cfg : Config) (b : block_t)
    (accel_dist decel_dist cruise_dist cruise_v : ℚ) (c : seg_cursor) (h : decel_dist ≠ 0)
    (hroom : c.st.move_segment_queue.length < cfg.MOVE_SEGMENT_QUEUE_SIZE) :
    (push_decel_phase cfg b accel_dist decel_dist cruise_dist cruise_v c).st.move_segment_queue
      = c.st.move_segment_queue
        ++ [decel_segment cfg b accel_dist cruise_dist cruise_v c.print_time c.start_pos] := by
  rw [push_decel_phase_spec cfg b accel_dist decel_dist cruise_dist cruise_v c h hroom]

theorem push_decel_phase_pt (cfg : Config) (b : block_t)
    (accel_dist decel_dist cruise_dist cruise_v : ℚ) (c : seg_cursor) (h : decel_dist ≠ 0)
    (hroom : c.st.move_segment_queue.length < cfg.MOVE_SEGMENT_QUEUE_SIZE) :
    (push_decel_phase cfg b accel_dist decel_dist cruise_dist cruise_v c).print_time
      = c.print_time
        + (decel_segment cfg b accel_dist cruise_dist cruise_v c.print_time c.start_pos).move_t := by
  rw [push_decel_phase_spec cfg b accel_dist decel_dist cruise_dist cruise_v c h hroom]

theorem push_accel_phase_eq_of_zero (cfg : Config) (b : block_t)
    (accel_dist decel_dist cruise_dist cruise_v : ℚ) (c : seg_cursor) (h : accel_dist = 0) :
    push_accel_phase cfg b accel_dist decel_dist cruise_dist cruise_v c = c := by
  subst h
  exact push_accel_phase_of_zero cfg b decel_dist cruise_dist cruise_v c

theorem push_cruise_phase_eq_of_zero (cfg : Config) (b : block_t)
    (accel_dist decel_dist cruise_dist cruise_v : ℚ) (c : seg_cursor) (h : cruise_dist = 0) :
    push_cruise_phase cfg b accel_dist decel_dist cruise_dist cruise_v c = c := by
  subst h
  exact push_cruise_phase_of_zero cfg b accel_dist decel_dist cruise_v c

theorem push_decel_phase_eq_of_zero (cfg : Config) (b : block_t)
    (accel_dist decel_dist cruise_dist cruise_v : ℚ) (c : seg_cursor) (h : decel_dist = 0) :
    push_decel_phase cfg b accel_dist decel_dist cruise_dist cruise_v c = c := by
  subst h
  exact push_decel_phase_of_zero cfg b accel_dist cruise_dist cruise_v c

/-- A block of positive length never compiles to zero segments. -/
theorem block_move_dists_not_all_zero (cfg : Config) (b : block_t)
    (heps : 0 < cfg.EPSILON_DISTANCE) (hmm : 0 < b.millimeters) :
    ¬ ((block_move_dists cfg b).1 = 0 ∧ (block_move_dists cfg b).2.1 = 0
        ∧ (block_move_dists cfg b).2.2.1 = 0) := by
  unfold block_move_dists
  dsimp only
  split_ifs with hc
  · rintro ⟨h1, h2, -⟩
    dsimp only at h1 h2
    rw [h1] at h2
    have hle := le_max_left (b.millimeters - 0) (0 : ℚ)
    rw [h2] at hle
    linarith
  · rintro ⟨-, -, h3⟩
    dsimp only at h3
    have := not_lt.mp hc
    linarith

/-- Claim C3: for every block accepted by `append_move_segments_to_queue`, it
pushes between 1 and 3 move segments onto the move segment queue, in phase
order accel then cruise then decel (any subset present); the first pushed
segment starts at the previous `total_print_time` and each subsequent
segment's `print_time` equals the previous segment's `print_time` plus the
previous segment's duration; exactly one pushed segment carries
`FirstSegOfBlock` and exactly one carries `LastSegOfBlock`. -/
theorem C3_block_to_segments (cfg : Config) (b : block_t) (s r : EngineState)
    (heps : 0 < cfg.EPSILON_DISTANCE) (hmm : 0 < b.millimeters)
    (h : append_move_segments_to_queue cfg b s = (true, r)) :
    ∃ pushed : List move_t,
      r.move_segment_queue = s.move_segment_queue ++ pushed
      ∧ 1 ≤ pushed.length ∧ pushed.length ≤ 3
      ∧ List.Chain' (fun m1 m2 => phase_rank m1 < phase_rank m2) pushed
      ∧ (∀ m0 ∈ pushed.head?, m0.print_time = s.total_print_time)
      ∧ List.Chain' (fun m1 m2 => m2.print_time = m1.print_time + m1.move_t) pushed
      ∧ pushed.countP
          (fun m => decide (moveFlagSet m.flags MOVE_FLAG_FIRST_MOVE_SEGMENT_OF_BLOCK)) = 1
      ∧ pushed.countP
          (fun m => decide (moveFlagSet m.flags MOVE_FLAG_LAST_MOVE_SEGMENT_OF_BLOCK)) = 1 := by
  have hnz := block_move_dists_not_all_zero cfg b heps hmm
  simp only [append_move_segments_to_queue] at h
  split at h
  · exact absurd (congrArg Prod.fst h) (by simp)
  · rename_i hfree
    rw [Prod.mk.injEq] at h
    obtain ⟨-, hX⟩ := h
    subst hX
    unfold move_segment_queue_free_slots at hfree
    push_neg at hfree
    set da := (block_move_dists cfg b).1 with hda_def
    set dd := (block_move_dists cfg b).2.1 with hdd_def
    set dc := (block_move_dists cfg b).2.2.1 with hdc_def
    set cv := (block_move_dists cfg b).2.2.2 with hcv_def
    set c0 : seg_cursor :=
      { st := s, print_time := s.total_print_time, start_pos := s.total_start_pos } with hc0
    have hq0 : c0.st.move_segment_queue.length = s.move_segment_queue.length + 0 := rfl
    by_cases hA : da = 0 <;> by_cases hC : dc = 0 <;> by_cases hD : dd = 0
    · exact absurd ⟨hA, hD, hC⟩ hnz
    ·
      have hreq : move_blocks_required cfg b = 1 := by
        unfold move_blocks_required
        rw [← hda_def, ← hdd_def, ← hdc_def, (if_neg (not_not_intro hA)), (if_pos hD), (if_neg (not_not_intro hC))]
      rw [hreq] at hfree
      rw [push_accel_phase_eq_of_zero cfg b da dd dc cv c0 hA]
      rw [push_cruise_phase_eq_of_zero cfg b da dd dc cv c0 hC]
      have hroom0 : c0.st.move_segment_queue.length < cfg.MOVE_SEGMENT_QUEUE_SIZE := by
        rw [hq0]
        omega
      have e1q := push_decel_phase_queue cfg b da dd dc cv c0 hD hroom0
      have e1t := push_decel_phase_pt cfg b da dd dc cv c0 hD hroom0
      set c1 := push_decel_phase cfg b da dd dc cv c0 with hc1
      have hq1 : c1.st.move_segment_queue.length = s.move_segment_queue.length + 1 := by
        rw [e1q, List.length_append, hq0]
        try rfl
      refine ⟨[decel_segment cfg b da dc cv c0.print_time c0.start_pos], ?_, ?_, ?_, ?_, ?_, ?_, ?_, ?_⟩
      · dsimp only
        rw [e1q]
        try simp [hc0, List.append_assoc]
      · simp
      · simp
      · exact List.chain'_singleton _
      · intro m0 hm0
        simp only [List.head?_cons, Option.mem_def, Option.some.injEq] at hm0
        subst hm0
        simp [decel_segment, hc0]
      · exact List.chain'_singleton _
      · simp [List.countP_cons, accel_segment_flag_tests, cruise_segment_flag_tests, decel_segment_flag_tests, hA, hC, hD]
      · simp [List.countP_cons, accel_segment_flag_tests, cruise_segment_flag_tests, decel_segment_flag_tests, hA, hC, hD]
    ·
      have hreq : move_blocks_required cfg b = 1 := by
        unfold move_blocks_required
        rw [← hda_def, ← hdd_def, ← hdc_def, (if_neg (not_not_intro hA)), (if_neg (not_not_intro hD)), (if_pos hC)]
      rw [hreq] at hfree
      rw [push_accel_phase_eq_of_zero cfg b da dd dc cv c0 hA]
      have hroom0 : c0.st.move_segment_queue.length < cfg.MOVE_SEGMENT_QUEUE_SIZE := by
        rw [hq0]
        omega
      have e1q := push_cruise_phase_queue cfg b da dd dc cv c0 hC hroom0
      have e1t := push_cruise_phase_pt cfg b da dd dc cv c0 hC hroom0
      set c1 := push_cruise_phase cfg b da dd dc cv c0 with hc1
      have hq1 : c1.st.move_segment_queue.length = s.move_segment_queue.length + 1 := by
        rw [e1q, List.length_append, hq0]
        try rfl
      rw [push_decel_phase_eq_of_zero cfg b da dd dc cv c1 hD]
      refine ⟨[cruise_segment cfg b da dd dc cv c0.print_time c0.start_pos], ?_, ?_, ?_, ?_, ?_, ?_, ?_, ?_⟩
      · dsimp only
        rw [e1q]
        try simp [hc0, List.append_assoc]
      · simp
      · simp
      · exact List.chain'_singleton _
      · intro m0 hm0
        simp only [List.head?_cons, Option.mem_def, Option.some.injEq] at hm0
        subst hm0
        simp [cruise_segment, hc0]
      · exact List.chain'_singleton _
      · simp [List.countP_cons, accel_segment_flag_tests, cruise_segment_flag_tests, decel_segment_flag_tests, hA, hC, hD]
      · simp [List.countP_cons, accel_segment_flag_tests, cruise_segment_flag_tests, decel_segment_flag_tests, hA, hC, hD]
    ·
      have hreq : move_blocks_required cfg b = 2 := by
        unfold move_blocks_required
        rw [← hda_def, ← hdd_def, ← hdc_def, (if_neg (not_not_intro hA)), (if_pos hD), (if_pos hC)]
      rw [hreq] at hfree
      rw [push_accel_phase_eq_of_zero cfg b da dd dc cv c0 hA]
      have hroom0 : c0.st.move_segment_queue.length < cfg.MOVE_SEGMENT_QUEUE_SIZE := by
        rw [hq0]
        omega
      have e1q := push_cruise_phase_queue cfg b da dd dc cv c0 hC hroom0
      have e1t := push_cruise_phase_pt cfg b da dd dc cv c0 hC hroom0
      set c1 := push_cruise_phase cfg b da dd dc cv c0 with hc1
      have hq1 : c1.st.move_segment_queue.length = s.move_segment_queue.length + 1 := by
        rw [e1q, List.length_append, hq0]
        try rfl
      have hroom1 : c1.st.move_segment_queue.length < cfg.MOVE_SEGMENT_QUEUE_SIZE := by
        rw [hq1]
        omega
      have e2q := push_decel_phase_queue cfg b da dd dc cv c1 hD hroom1
      have e2t := push_decel_phase_pt cfg b da dd dc cv c1 hD hroom1
      set c2 := push_decel_phase cfg b da dd dc cv c1 with hc2
      have hq2 : c2.st.move_segment_queue.length = s.move_segment_queue.length + 2 := by
        rw [e2q, List.length_append, hq1]
        try rfl
      refine ⟨[cruise_segment cfg b da dd dc cv c0.print_time c0.start_pos, decel_segment cfg b da dc cv c1.print_time c1.start_pos], ?_, ?_, ?_, ?_, ?_, ?_, ?_, ?_⟩
      · dsimp only
        rw [e2q, e1q]
        try simp [hc0, List.append_assoc]
      · simp
      · simp
      · refine List.chain'_cons.mpr ⟨?_, List.chain'_singleton _⟩
        rw [cruise_segment_rank, decel_segment_rank]
        omega
      · intro m0 hm0
        simp only [List.head?_cons, Option.mem_def, Option.some.injEq] at hm0
        subst hm0
        simp [cruise_segment, hc0]
      · refine List.chain'_cons.mpr ⟨?_, List.chain'_singleton _⟩
        dsimp only [cruise_segment, decel_segment] at e1t ⊢
        exact e1t
      · simp [List.countP_cons, accel_segment_flag_tests, cruise_segment_flag_tests, decel_segment_flag_tests, hA, hC, hD]
      · simp [List.countP_cons, accel_segment_flag_tests, cruise_segment_flag_tests, decel_segment_flag_tests, hA, hC, hD]
    ·
      have hreq : move_blocks_required cfg b = 1 := by
        unfold move_blocks_required
        rw [← hda_def, ← hdd_def, ← hdc_def, (if_pos hA), (if_neg (not_not_intro hD)), (if_neg (not_not_intro hC))]
      rw [hreq] at hfree
      have hroom0 : c0.st.move_segment_queue.length < cfg.MOVE_SEGMENT_QUEUE_SIZE := by
        rw [hq0]
        omega
      have e1q := push_accel_phase_queue cfg b da dd dc cv c0 hA hroom0
      have e1t := push_accel_phase_pt cfg b da dd dc cv c0 hA hroom0
      set c1 := push_accel_phase cfg b da dd dc cv c0 with hc1
      have hq1 : c1.st.move_segment_queue.length = s.move_segment_queue.length + 1 := by
        rw [e1q, List.length_append, hq0]
        try rfl
      rw [push_cruise_phase_eq_of_zero cfg b da dd dc cv c1 hC]
      rw [push_decel_phase_eq_of_zero cfg b da dd dc cv c1 hD]
      refine ⟨[accel_segment cfg b dd dc cv c0.print_time c0.start_pos], ?_, ?_, ?_, ?_, ?_, ?_, ?_, ?_⟩
      · dsimp only
        rw [e1q]
        try simp [hc0, List.append_assoc]
      · simp
      · simp
      · exact List.chain'_singleton _
      · intro m0 hm0
        simp only [List.head?_cons, Option.mem_def, Option.some.injEq] at hm0
        subst hm0
        simp [accel_segment, hc0]
      · exact List.chain'_singleton _
      · simp [List.countP_cons, accel_segment_flag_tests, cruise_segment_flag_tests, decel_segment_flag_tests, hA, hC, hD]
      · simp [List.countP_cons, accel_segment_flag_tests, cruise_segment_flag_tests, decel_segment_flag_tests, hA, hC, hD]
    ·
      have hreq : move_blocks_required cfg b = 2 := by
        unfold move_blocks_required
        rw [← hda_def, ← hdd_def, ← hdc_def, (if_pos hA), (if_pos hD), (if_neg (not_not_intro hC))]
      rw [hreq] at hfree
      have hroom0 : c0.st.move_segment_queue.length < cfg.MOVE_SEGMENT_QUEUE_SIZE := by
        rw [hq0]
        omega
      have e1q := push_accel_phase_queue cfg b da dd dc cv c0 hA hroom0
      have e1t := push_accel_phase_pt cfg b da dd dc cv c0 hA hroom0
      set c1 := push_accel_phase cfg b da dd dc cv c0 with hc1
      have hq1 : c1.st.move_segment_queue.length = s.move_segment_queue.length + 1 := by
        rw [e1q, List.length_append, hq0]
        try rfl
      rw [push_cruise_phase_eq_of_zero cfg b da dd dc cv c1 hC]
      have hroom1 : c1.st.move_segment_queue.length < cfg.MOVE_SEGMENT_QUEUE_SIZE := by
        rw [hq1]
        omega
      have e2q := push_decel_phase_queue cfg b da dd dc cv c1 hD hroom1
      have e2t := push_decel_phase_pt cfg b da dd dc cv c1 hD hroom1
      set c2 := push_decel_phase cfg b da dd dc cv c1 with hc2
      have hq2 : c2.st.move_segment_queue.length = s.move_segment_queue.length + 2 := by
        rw [e2q, List.length_append, hq1]
        try rfl
      refine ⟨[accel_segment cfg b dd dc cv c0.print_time c0.start_pos, decel_segment cfg b da dc cv c1.print_time c1.start_pos], ?_, ?_, ?_, ?_, ?_, ?_, ?_, ?_⟩
      · dsimp only
        rw [e2q, e1q]
        try simp [hc0, List.append_assoc]
      · simp
      · simp
      · refine List.chain'_cons.mpr ⟨?_, List.chain'_singleton _⟩
        rw [accel_segment_rank, decel_segment_rank]
        omega
      · intro m0 hm0
        simp only [List.head?_cons, Option.mem_def, Option.some.injEq] at hm0
        subst hm0
        simp [accel_segment, hc0]
      · refine List.chain'_cons.mpr ⟨?_, List.chain'_singleton _⟩
        dsimp only [accel_segment, decel_segment] at e1t ⊢
        exact e1t
      · simp [List.countP_cons, accel_segment_flag_tests, cruise_segment_flag_tests, decel_segment_flag_tests, hA, hC, hD]
      · simp [List.countP_cons, accel_segment_flag_tests, cruise_segment_flag_tests, decel_segment_flag_tests, hA, hC, hD]
    ·
      have hreq : move_blocks_required cfg b = 2 := by
        unfold move_blocks_required
        rw [← hda_def, ← hdd_def, ← hdc_def, (if_pos hA), (if_neg (not_not_intro hD)), (if_pos hC)]
      rw [hreq] at hfree
      have hroom0 : c0.st.move_segment_queue.length < cfg.MOVE_SEGMENT_QUEUE_SIZE := by
        rw [hq0]
        omega
      have e1q := push_accel_phase_queue cfg b da dd dc cv c0 hA hroom0
      have e1t := push_accel_phase_pt cfg b da dd dc cv c0 hA hroom0
      set c1 := push_accel_phase cfg b da dd dc cv c0 with hc1
      have hq1 : c1.st.move_segment_queue.length = s.move_segment_queue.length + 1 := by
        rw [e1q, List.length_append, hq0]
        try rfl
      have hroom1 : c1.st.move_segment_queue.length < cfg.MOVE_SEGMENT_QUEUE_SIZE := by
        rw [hq1]
        omega
      have e2q := push_cruise_phase_queue cfg b da dd dc cv c1 hC hroom1
      have e2t := push_cruise_phase_pt cfg b da dd dc cv c1 hC hroom1
      set c2 := push_cruise_phase cfg b da dd dc cv c1 with hc2
      have hq2 : c2.st.move_segment_queue.length = s.move_segment_queue.length + 2 := by
        rw [e2q, List.length_append, hq1]
        try rfl
      rw [push_decel_phase_eq_of_zero cfg b da dd dc cv c2 hD]
      refine ⟨[accel_segment cfg b dd dc cv c0.print_time c0.start_pos, cruise_segment cfg b da dd dc cv c1.print_time c1.start_pos], ?_, ?_, ?_, ?_, ?_, ?_, ?_, ?_⟩
      · dsimp only
        rw [e2q, e1q]
        try simp [hc0, List.append_assoc]
      · simp
      · simp
      · refine List.chain'_cons.mpr ⟨?_, List.chain'_singleton _⟩
        rw [accel_segment_rank, cruise_segment_rank]
        omega
      · intro m0 hm0
        simp only [List.head?_cons, Option.mem_def, Option.some.injEq] at hm0
        subst hm0
        simp [accel_segment, hc0]
      · refine List.chain'_cons.mpr ⟨?_, List.chain'_singleton _⟩
        dsimp only [accel_segment, cruise_segment] at e1t ⊢
        exact e1t
      · simp [List.countP_cons, accel_segment_flag_tests, cruise_segment_flag_tests, decel_segment_flag_tests, hA, hC, hD]
      · simp [List.countP_cons, accel_segment_flag_tests, cruise_segment_flag_tests, decel_segment_flag_tests, hA, hC, hD]
    ·
      have hreq : move_blocks_required cfg b = 3 := by
        unfold move_blocks_required
        rw [← hda_def, ← hdd_def, ← hdc_def, (if_pos hA), (if_pos hD), (if_pos hC)]
      rw [hreq] at hfree
      have hroom0 : c0.st.move_segment_queue.length < cfg.MOVE_SEGMENT_QUEUE_SIZE := by
        rw [hq0]
        omega
      have e1q := push_accel_phase_queue cfg b da dd dc cv c0 hA hroom0
      have e1t := push_accel_phase_pt cfg b da dd dc cv c0 hA hroom0
      set c1 := push_accel_phase cfg b da dd dc cv c0 with hc1
      have hq1 : c1.st.move_segment_queue.length = s.move_segment_queue.length + 1 := by
        rw [e1q, List.length_append, hq0]
        try rfl
      have hroom1 : c1.st.move_segment_queue.length < cfg.MOVE_SEGMENT_QUEUE_SIZE := by
        rw [hq1]
        omega
      have e2q := push_cruise_phase_queue cfg b da dd dc cv c1 hC hroom1
      have e2t := push_cruise_phase_pt cfg b da dd dc cv c1 hC hroom1
      set c2 := push_cruise_phase cfg b da dd dc cv c1 with hc2
      have hq2 : c2.st.move_segment_queue.length = s.move_segment_queue.length + 2 := by
        rw [e2q, List.length_append, hq1]
        try rfl
      have hroom2 : c2.st.move_segment_queue.length < cfg.MOVE_SEGMENT_QUEUE_SIZE := by
        rw [hq2]
        omega
      have e3q := push_decel_phase_queue cfg b da dd dc cv c2 hD hroom2
      have e3t := push_decel_phase_pt cfg b da dd dc cv c2 hD hroom2
      set c3 := push_decel_phase cfg b da dd dc cv c2 with hc3
      have hq3 : c3.st.move_segment_queue.length = s.move_segment_queue.length + 3 := by
        rw [e3q, List.length_append, hq2]
        try rfl
      refine ⟨[accel_segment cfg b dd dc cv c0.print_time c0.start_pos, cruise_segment cfg b da dd dc cv c1.print_time c1.start_pos, decel_segment cfg b da dc cv c2.print_time c2.start_pos], ?_, ?_, ?_, ?_, ?_, ?_, ?_, ?_⟩
      · dsimp only
        rw [e3q, e2q, e1q]
        try simp [hc0, List.append_assoc]
      · simp
      · simp
      · refine List.chain'_cons.mpr ⟨?_, List.chain'_cons.mpr ⟨?_, List.chain'_singleton _⟩⟩
        · rw [accel_segment_rank, cruise_segment_rank]
          omega
        · rw [cruise_segment_rank, decel_segment_rank]
          omega
      · intro m0 hm0
        simp only [List.head?_cons, Option.mem_def, Option.some.injEq] at hm0
        subst hm0
        simp [accel_segment, hc0]
      · refine List.chain'_cons.mpr ⟨?_, List.chain'_cons.mpr ⟨?_, List.chain'_singleton _⟩⟩
        · dsimp only [accel_segment, cruise_segment] at e1t ⊢
          exact e1t
        · dsimp only [cruise_segment, decel_segment] at e2t ⊢
          exact e2t
      · simp [List.countP_cons, accel_segment_flag_tests, cruise_segment_flag_tests, decel_segment_flag_tests, hA, hC, hD]
      · simp [List.countP_cons, accel_segment_flag_tests, cruise_segment_flag_tests, decel_segment_flag_tests, hA, hC, hD]

theorem C3_block_to_segments_witness :
    0 < cfg0.EPSILON_DISTANCE ∧ 0 < blockS2.millimeters ∧
    ∃ pushed : List move_t,
      (append_move_segments_to_queue cfg0 blockS2 engine0).2.move_segment_queue
        = engine0.move_segment_queue ++ pushed
      ∧ 1 ≤ pushed.length ∧ pushed.length ≤ 3
      ∧ List.Chain' (fun m1 m2 => phase_rank m1 < phase_rank m2) pushed
      ∧ (∀ m0 ∈ pushed.head?, m0.print_time = engine0.total_print_time)
      ∧ List.Chain' (fun m1 m2 => m2.print_time = m1.print_time + m1.move_t) pushed
      ∧ pushed.countP
          (fun m => decide (moveFlagSet m.flags MOVE_FLAG_FIRST_MOVE_SEGMENT_OF_BLOCK)) = 1
      ∧ pushed.countP
          (fun m => decide (moveFlagSet m.flags MOVE_FLAG_LAST_MOVE_SEGMENT_OF_BLOCK)) = 1 := by
  have hcond : ¬ (move_segment_queue_free_slots cfg0 engine0
      < move_blocks_required cfg0 blockS2 + cfg0.MOVE_SEGMENT_QUEUE_MIN_FREE_SLOTS) := by
    simp only [move_blocks_required, blockS2_dists cfg0 (by norm_num [cfg0])]
    norm_num [move_segment_queue_free_slots, cfg0, engine0]
  have hfst : (append_move_segments_to_queue cfg0 blockS2 engine0).1 = true := by
    simp only [append_move_segments_to_queue, if_neg hcond]
  exact ⟨by norm_num [cfg0], by norm_num [blockS2],
    C3_block_to_segments cfg0 blockS2 engine0 _
      (by norm_num [cfg0]) (by norm_num [blockS2]) (Prod.ext hfst rfl)⟩
